import Mathlib

/-! Shallow embedding of the soccer-engine gameplay core (ball physics, match
state, human player, AI players) with machine floats modelled as real
numbers.  Every definition mirrors one function of the C++ source. -/

noncomputable section

/-- 3-component vector, modelling glm::vec3 (f32 components as reals). -/
@[ext]
structure Vec3 where
  x : ℝ
  y : ℝ
  z : ℝ

instance : Add Vec3 := ⟨fun a b => ⟨a.x + b.x, a.y + b.y, a.z + b.z⟩⟩
instance : Sub Vec3 := ⟨fun a b => ⟨a.x - b.x, a.y - b.y, a.z - b.z⟩⟩
instance : Neg Vec3 := ⟨fun a => ⟨-a.x, -a.y, -a.z⟩⟩
instance : SMul ℝ Vec3 := ⟨fun c v => ⟨c * v.x, c * v.y, c * v.z⟩⟩

/-- glm::length. -/
def Vec3.length (v : Vec3) : ℝ := Real.sqrt (v.x ^ 2 + v.y ^ 2 + v.z ^ 2)

/-- glm::normalize (total model: returns the zero vector at zero input). -/
def Vec3.normalize (v : Vec3) : Vec3 := (1 / v.length) • v

/-- glm::dot. -/
def Vec3.dot (a b : Vec3) : ℝ := a.x * b.x + a.y * b.y + a.z * b.z

/-- glm::cross. -/
def Vec3.cross (a b : Vec3) : Vec3 :=
  ⟨a.y * b.z - a.z * b.y, a.z * b.x - a.x * b.z, a.x * b.y - a.y * b.x⟩

/-- std::copysign for the reals (no signed zero: zero counts as positive). -/
def copysignR (a b : ℝ) : ℝ := if b < 0 then -|a| else |a|

/-- BallState from BallPhysics.hpp. -/
@[ext]
structure BallState where
  position : Vec3
  velocity : Vec3
  angularVelocity : Vec3
  rotationAngle : ℝ

/-- FieldBounds from BallPhysics.hpp. -/
structure FieldBounds where
  length : ℝ
  width : ℝ
  goalWidth : ℝ
  goalHeight : ℝ

/-- The FIFA-standard default field dimensions (105 x 68, goal 7.32 x 2.44). -/
def defaultBounds : FieldBounds := ⟨105, 68, 7.32, 2.44⟩

namespace BallPhysics

def BALL_RADIUS : ℝ := 0.22
def BALL_MASS : ℝ := 0.43
def GRAVITY : ℝ := 9.81
def AIR_DENSITY : ℝ := 1.2
def DRAG_COEFFICIENT : ℝ := 0.2
def MAGNUS_COEFFICIENT : ℝ := 0.5
def BOUNCE_FACTOR : ℝ := 0.7
def ROLLING_FRICTION : ℝ := 0.3
def SPIN_DECAY : ℝ := 0.98

/-- BallPhysics::isInAir. -/
def isInAir (ball : BallState) : Prop := ball.position.y > BALL_RADIUS + 0.3

instance (ball : BallState) : Decidable (isInAir ball) :=
  inferInstanceAs (Decidable (ball.position.y > BALL_RADIUS + 0.3))

/-- BallPhysics::isLow. -/
def isLow (ball : BallState) : Prop :=
  ball.position.y < BALL_RADIUS + 0.15 ∧ ball.velocity.y < 0.5

/-- BallPhysics::applyGravity. -/
def applyGravity (ball : BallState) (dt : ℝ) : BallState :=
  { ball with velocity := ⟨ball.velocity.x, ball.velocity.y - GRAVITY * dt, ball.velocity.z⟩ }

/-- BallPhysics::applyAirDrag. -/
def applyAirDrag (ball : BallState) (dt : ℝ) : BallState :=
  let ballSpeed := ball.velocity.length
  if ballSpeed < 0.01 then ball
  else
    let velDir := (1 / ballSpeed) • ball.velocity
    let ballArea := 3.14159 * BALL_RADIUS * BALL_RADIUS
    let dragForce := 0.5 * AIR_DENSITY * DRAG_COEFFICIENT * ballArea * ballSpeed * ballSpeed
    let dragAccel := dragForce / BALL_MASS
    { ball with velocity := ball.velocity - (dragAccel * dt) • velDir }

/-- BallPhysics::applyMagnusEffect. -/
def applyMagnusEffect (ball : BallState) (dt : ℝ) : BallState :=
  let magnusForce := MAGNUS_COEFFICIENT • (ball.angularVelocity.cross ball.velocity)
  let maxMagnusAccel : ℝ := 15.0
  let magnusAccel := magnusForce.length / BALL_MASS
  let magnusForce2 := if magnusAccel > maxMagnusAccel
    then (maxMagnusAccel / magnusAccel) • magnusForce else magnusForce
  { ball with velocity := ball.velocity + dt • ((1 / BALL_MASS) • magnusForce2) }

/-- BallPhysics::applySpinDecay (std::pow with a real exponent is rpow). -/
def applySpinDecay (ball : BallState) (dt : ℝ) : BallState :=
  if isInAir ball then
    { ball with angularVelocity := (Real.rpow SPIN_DECAY dt) • ball.angularVelocity }
  else
    { ball with angularVelocity := (Real.rpow 0.9 dt) • ball.angularVelocity }

/-- BallPhysics::handleGroundCollision. -/
def handleGroundCollision (ball : BallState) : BallState :=
  if ball.position.y < BALL_RADIUS then
    let b := { ball with position := ⟨ball.position.x, BALL_RADIUS, ball.position.z⟩ }
    if b.velocity.y < -0.5 then
      { b with velocity := ⟨b.velocity.x * 0.9, -b.velocity.y * BOUNCE_FACTOR, b.velocity.z * 0.9⟩,
               angularVelocity := (0.7 : ℝ) • b.angularVelocity }
    else
      { b with velocity := ⟨b.velocity.x, 0, b.velocity.z⟩ }
  else ball

/-- BallPhysics::applyRollingFriction. -/
def applyRollingFriction (ball : BallState) (dt : ℝ) : BallState :=
  if ball.position.y ≤ BALL_RADIUS + 0.05 then
    let groundSpeed := Vec3.length ⟨ball.velocity.x, 0, ball.velocity.z⟩
    if groundSpeed > 0.01 then
      let frictionDecel := ROLLING_FRICTION * GRAVITY * dt
      let newSpeed := max 0 (groundSpeed - frictionDecel)
      let frictionFactor := newSpeed / groundSpeed
      { ball with velocity :=
          ⟨ball.velocity.x * frictionFactor, ball.velocity.y, ball.velocity.z * frictionFactor⟩ }
    else
      { ball with velocity := ⟨0, ball.velocity.y, 0⟩ }
  else ball

/-- The goal-window test of BallPhysics::handleFieldBoundaries
(`inGoalArea` local). -/
def inGoalAreaPhysics (bounds : FieldBounds) (pos : Vec3) : Prop :=
  |pos.z| < bounds.goalWidth / 2 ∧ pos.y < bounds.goalHeight

instance (bounds : FieldBounds) (pos : Vec3) : Decidable (inGoalAreaPhysics bounds pos) :=
  inferInstanceAs (Decidable (_ ∧ _))

/-- BallPhysics::handleFieldBoundaries. -/
def handleFieldBoundaries (ball : BallState) (bounds : FieldBounds) : BallState :=
  let halfLength := bounds.length / 2
  let halfWidth := bounds.width / 2
  let b1 :=
    if |ball.position.x| > halfLength then
      if inGoalAreaPhysics bounds ball.position then ball
      else
        { ball with
            position := ⟨copysignR halfLength ball.position.x, ball.position.y, ball.position.z⟩,
            velocity := ⟨-ball.velocity.x * 0.5, ball.velocity.y, ball.velocity.z⟩,
            angularVelocity := (0.5 : ℝ) • ball.angularVelocity }
    else ball
  if |b1.position.z| > halfWidth + 0.5 then
    { b1 with
        position := ⟨b1.position.x, b1.position.y, copysignR (halfWidth + 0.5) b1.position.z⟩,
        velocity := ⟨b1.velocity.x, b1.velocity.y, -b1.velocity.z * 0.5⟩,
        angularVelocity := (0.5 : ℝ) • b1.angularVelocity }
  else b1

/-- The Magnus stage of BallPhysics::update: the conditional application of
applyMagnusEffect, whose guard reads `inAir` and `ballSpeed` from the
pre-update state `ball0` and the angular velocity from the current state `b`. -/
def magnusStage (ball0 b : BallState) (dt : ℝ) : BallState :=
  if isInAir ball0 ∧ b.angularVelocity.length > 0.1 ∧ ball0.velocity.length > 1.0 then
    applyMagnusEffect b dt
  else b

/-- The drag stage of BallPhysics::update: applyAirDrag guarded by the
pre-update `inAir` and `ballSpeed` locals. -/
def dragStage (ball0 b : BallState) (dt : ℝ) : BallState :=
  if isInAir ball0 ∧ ball0.velocity.length > 0.1 then applyAirDrag b dt else b

/-- The explicit-Euler position integration of BallPhysics::update. -/
def integrateStage (b : BallState) (dt : ℝ) : BallState :=
  { b with position := b.position + dt • b.velocity }

/-- The cosmetic visual-rotation stage of BallPhysics::update, guarded by the
pre-update `ballSpeed` local. -/
def rotationStage (ball0 b : BallState) (dt : ℝ) : BallState :=
  if ball0.velocity.length > 0.1
  then { b with rotationAngle := b.rotationAngle + ball0.velocity.length * dt * 3 }
  else b

/-- BallPhysics::update: the full per-frame pipeline (gravity, guarded drag,
guarded Magnus, spin decay, integration, visual rotation, ground collision,
rolling friction, field boundaries). -/
def update (ball : BallState) (dt : ℝ) (bounds : FieldBounds) : BallState :=
  handleFieldBoundaries
    (applyRollingFriction
      (handleGroundCollision
        (rotationStage ball
          (integrateStage
            (applySpinDecay
              (magnusStage ball
                (dragStage ball (applyGravity ball dt) dt) dt) dt) dt) dt)) dt) bounds

/-- BallPhysics::update with the Magnus stage removed, used to state that no
Magnus force is applied below the spin and speed thresholds. -/
def updateNoMagnus (ball : BallState) (dt : ℝ) (bounds : FieldBounds) : BallState :=
  handleFieldBoundaries
    (applyRollingFriction
      (handleGroundCollision
        (rotationStage ball
          (integrateStage
            (applySpinDecay
              (dragStage ball (applyGravity ball dt) dt) dt) dt) dt)) dt) bounds

end BallPhysics

namespace Ball

/-- Ball::RADIUS. -/
def RADIUS : ℝ := BallPhysics.BALL_RADIUS

/-- Ball::reset — center field, slightly elevated, at rest. -/
def reset (_b : BallState) : BallState :=
  ⟨⟨0, 0.5, 0⟩, ⟨0, 0, 0⟩, ⟨0, 0, 0⟩, 0⟩

/-- Ball::kick. -/
def kick (b : BallState) (direction : Vec3) (power spinY spinX : ℝ) : BallState :=
  let kickDir := direction.normalize
  { b with velocity := power • kickDir, angularVelocity := ⟨spinX, spinY, 0⟩ }

end Ball

/-- The scoring / goal-detection state of Match (Match.hpp data members). -/
@[ext]
structure MatchState where
  fieldLength : ℝ
  fieldWidth : ℝ
  goalWidth : ℝ
  goalHeight : ℝ
  scoreLeft : ℤ
  scoreRight : ℤ
  goalScored : Bool
  celebrationTimer : ℝ
  lastScoringTeam : ℤ

/-- A MatchState with the constructor defaults of Match.hpp. -/
def defaultMatch : MatchState := ⟨105, 68, 7.32, 2.44, 0, 0, false, 0, -1⟩

namespace Match

def GOAL_CELEBRATION_DURATION : ℝ := 3.0

/-- Match::checkGoal: returns the bool result and the updated match state. -/
def checkGoal (m : MatchState) (ballPos : Vec3) : Bool × MatchState :=
  if m.goalScored then (false, m)
  else
    if ballPos.x > m.fieldLength / 2 + Ball.RADIUS ∧ |ballPos.z| < m.goalWidth / 2 ∧
        (ballPos.y < m.goalHeight ∧ ballPos.y > 0) then
      (true, { m with scoreRight := m.scoreRight + 1, goalScored := true,
                      celebrationTimer := GOAL_CELEBRATION_DURATION, lastScoringTeam := 0 })
    else if ballPos.x < -(m.fieldLength / 2) - Ball.RADIUS ∧ |ballPos.z| < m.goalWidth / 2 ∧
        (ballPos.y < m.goalHeight ∧ ballPos.y > 0) then
      (true, { m with scoreLeft := m.scoreLeft + 1, goalScored := true,
                      celebrationTimer := GOAL_CELEBRATION_DURATION, lastScoringTeam := 1 })
    else (false, m)

/-- Match::resetAfterGoal. -/
def resetAfterGoal (m : MatchState) (b : BallState) : MatchState × BallState :=
  ({ m with goalScored := false, celebrationTimer := 0 }, Ball.reset b)

/-- Match::reset. -/
def reset (m : MatchState) : MatchState :=
  { m with scoreLeft := 0, scoreRight := 0, goalScored := false,
           celebrationTimer := 0, lastScoringTeam := -1 }

/-- Match::update. -/
def update (m : MatchState) (dt : ℝ) (b : BallState) : MatchState × BallState :=
  if m.goalScored then
    let m1 := { m with celebrationTimer := m.celebrationTimer - dt }
    if m1.celebrationTimer ≤ 0 then resetAfterGoal m1 b else (m1, b)
  else
    ((checkGoal m b.position).2, b)

/-- The goal-window test of Match::handleBoundaryCollision (`inGoalArea`
local). -/
def inGoalAreaMatch (m : MatchState) (pos : Vec3) : Prop :=
  |pos.z| < m.goalWidth / 2 ∧ pos.y < m.goalHeight

instance (m : MatchState) (pos : Vec3) : Decidable (inGoalAreaMatch m pos) :=
  inferInstanceAs (Decidable (_ ∧ _))

/-- Match::handleBoundaryCollision. -/
def handleBoundaryCollision (m : MatchState) (ball : BallState) : BallState :=
  let halfLength := m.fieldLength / 2
  let halfWidth := m.fieldWidth / 2
  let radius := Ball.RADIUS
  let b1 :=
    if ball.position.z < -halfWidth + radius then
      { ball with position := ⟨ball.position.x, ball.position.y, -halfWidth + radius⟩,
                  velocity := ⟨ball.velocity.x, ball.velocity.y, |ball.velocity.z| * 0.6⟩ }
    else if ball.position.z > halfWidth - radius then
      { ball with position := ⟨ball.position.x, ball.position.y, halfWidth - radius⟩,
                  velocity := ⟨ball.velocity.x, ball.velocity.y, -|ball.velocity.z| * 0.6⟩ }
    else ball
  if ¬ inGoalAreaMatch m ball.position then
    if ball.position.x < -halfLength + radius then
      { b1 with position := ⟨-halfLength + radius, b1.position.y, b1.position.z⟩,
                velocity := ⟨|ball.velocity.x| * 0.6, b1.velocity.y, b1.velocity.z⟩ }
    else if ball.position.x > halfLength - radius then
      { b1 with position := ⟨halfLength - radius, b1.position.y, b1.position.z⟩,
                velocity := ⟨-|ball.velocity.x| * 0.6, b1.velocity.y, b1.velocity.z⟩ }
    else b1
  else b1

end Match

/-- One call into Match from the caller: the operations C9 quantifies over. -/
inductive MatchOp where
  | update (dt : ℝ)
  | checkGoal (pos : Vec3)
  | resetAfterGoal

/-- Apply one Match operation to the (match state, ball) pair. -/
def applyOp (s : MatchState × BallState) : MatchOp → MatchState × BallState
  | .update dt => Match.update s.1 dt s.2
  | .checkGoal pos => ((Match.checkGoal s.1 pos).2, s.2)
  | .resetAfterGoal => Match.resetAfterGoal s.1 s.2

/-- Apply a sequence of Match operations. -/
def applyOps (s : MatchState × BallState) (ops : List MatchOp) : MatchState × BallState :=
  ops.foldl applyOp s

/-- The first wrap loop shared by Player::updateRotation and AIPlayer::update:
`while (d > 3.14159f) d -= 6.28318f`. -/
def wrapLoopDown (d : ℝ) : ℝ :=
  if h : d > 3.14159 then wrapLoopDown (d - 6.28318) else d
termination_by Nat.ceil ((d - 3.14159) / 6.28318)
decreasing_by
  have key : (d - 6.28318 - 3.14159) / 6.28318 = (d - 3.14159) / 6.28318 - 1 := by ring
  rw [key]
  have hy : 0 < (d - 3.14159) / 6.28318 := by
    apply div_pos
    · linarith
    · norm_num
  have h1 : 0 < Nat.ceil ((d - 3.14159) / 6.28318) := Nat.ceil_pos.mpr hy
  have h2 : Nat.ceil ((d - 3.14159) / 6.28318 - 1) ≤ Nat.ceil ((d - 3.14159) / 6.28318) - 1 := by
    rw [Nat.ceil_le]
    have hle := Nat.le_ceil ((d - 3.14159) / 6.28318)
    have hcast : ((Nat.ceil ((d - 3.14159) / 6.28318) - 1 : ℕ) : ℝ) =
        (Nat.ceil ((d - 3.14159) / 6.28318) : ℝ) - 1 := by
      push_cast [Nat.cast_sub h1]
      ring
    rw [hcast]
    linarith
  exact lt_of_le_of_lt h2 (Nat.sub_lt h1 one_pos)

/-- The second wrap loop shared by Player::updateRotation and AIPlayer::update:
`while (d < -3.14159f) d += 6.28318f`. -/
def wrapLoopUp (d : ℝ) : ℝ :=
  if h : d < -3.14159 then wrapLoopUp (d + 6.28318) else d
termination_by Nat.ceil ((-3.14159 - d) / 6.28318)
decreasing_by
  have key : (-3.14159 - (d + 6.28318)) / 6.28318 = (-3.14159 - d) / 6.28318 - 1 := by ring
  rw [key]
  have hy : 0 < (-3.14159 - d) / 6.28318 := by
    apply div_pos
    · linarith
    · norm_num
  have h1 : 0 < Nat.ceil ((-3.14159 - d) / 6.28318) := Nat.ceil_pos.mpr hy
  have h2 : Nat.ceil ((-3.14159 - d) / 6.28318 - 1) ≤ Nat.ceil ((-3.14159 - d) / 6.28318) - 1 := by
    rw [Nat.ceil_le]
    have hle := Nat.le_ceil ((-3.14159 - d) / 6.28318)
    have hcast : ((Nat.ceil ((-3.14159 - d) / 6.28318) - 1 : ℕ) : ℝ) =
        (Nat.ceil ((-3.14159 - d) / 6.28318) : ℝ) - 1 := by
      push_cast [Nat.cast_sub h1]
      ring
    rw [hcast]
    linarith
  exact lt_of_le_of_lt h2 (Nat.sub_lt h1 one_pos)

/-- Both wrap loops in source order (the `> π` loop, then the `< -π` loop). -/
def wrapAngle (d : ℝ) : ℝ := wrapLoopUp (wrapLoopDown d)

/-- The human-controlled player state (Player.hpp data members). -/
@[ext]
structure PlayerState where
  position : Vec3
  velocity : Vec3
  rotation : ℝ
  targetRotation : ℝ
  inputDirection : Vec3
  isSprinting : Bool
  animationTime : ℝ
  kickAnimationTimer : ℝ
  isKicking : Bool

namespace Player

def MAX_SPEED : ℝ := 8
def SPRINT_SPEED : ℝ := 12
def ACCELERATION : ℝ := 40
def DECELERATION : ℝ := 30
def ROTATION_SPEED : ℝ := 6
def RADIUS : ℝ := 0.3
def KICK_RANGE : ℝ := 1.5
def DRIBBLE_RANGE : ℝ := 1.2

/-- Player::updateRotation as a function of the facing, the target facing and
dt: wrap the difference, advance by the exponential-decay fraction, wrap the
result back into the canonical range. -/
def updateRotation (rotation targetRotation dt : ℝ) : ℝ :=
  let rotationDiff := wrapAngle (targetRotation - rotation)
  let t := 1 - Real.exp (-(ROTATION_SPEED * dt))
  wrapAngle (rotation + rotationDiff * t)

/-- Player::tryKick: returns (result, player, ball). -/
def tryKick (p : PlayerState) (ball : BallState) (sprinting : Bool) (spinY : ℝ) :
    Bool × PlayerState × BallState :=
  if (ball.position - p.position).length ≥ KICK_RANGE then (false, p, ball)
  else
    let kickDir := Vec3.normalize ⟨-Real.sin p.rotation, 0.3, -Real.cos p.rotation⟩
    let kickPower : ℝ := if sprinting then 22 else 15
    let spinX : ℝ := if sprinting then -5 else 0
    (true, { p with isKicking := true, kickAnimationTimer := 0.3 },
     Ball.kick ball kickDir kickPower spinY spinX)

end Player

/-- An AI-controlled player (AIPlayer.hpp data members used by the claims). -/
@[ext]
structure AIPlayerData where
  position : Vec3
  velocity : Vec3
  homePosition : Vec3
  rotation : ℝ
  targetRotation : ℝ
  team : ℤ
  kickCooldown : ℝ
  animTime : ℝ
  isClosestChaser : Bool
  isGoalkeeper : Bool
  isDefender : Bool

namespace AIPlayer

def MAX_SPEED : ℝ := 7
def ACCELERATION : ℝ := 25
def KICK_POWER : ℝ := 15
def KICK_RANGE : ℝ := 1
def ROTATION_SPEED : ℝ := 8
def KICK_COOLDOWN : ℝ := 1.5
def RADIUS : ℝ := 0.3

/-- The default-constructed AIPlayer. -/
def init : AIPlayerData :=
  ⟨⟨0, 0, 0⟩, ⟨0, 0, 0⟩, ⟨0, 0, 0⟩, 0, 0, 0, 0, 0, false, false, false⟩

/-- AIPlayer::setHomePosition: stores the home position, teleports there, and
infers the goalkeeper / defender role flags from the home X coordinate. -/
def setHomePosition (p : AIPlayerData) (pos : Vec3) : AIPlayerData :=
  let gk := decide (|pos.x| > 40)
  { p with homePosition := pos, position := pos,
           isGoalkeeper := gk, isDefender := decide (|pos.x| > 30) && !gk }

/-- AIPlayer::setTeam. -/
def setTeam (p : AIPlayerData) (t : ℤ) : AIPlayerData := { p with team := t }

/-- AIPlayer::distanceToBall: horizontal (XZ) distance, Y ignored. -/
def distanceToBall (p : AIPlayerData) (ballPos : Vec3) : ℝ :=
  Vec3.length ⟨ballPos.x - p.position.x, 0, ballPos.z - p.position.z⟩

/-- The facing-update portion of AIPlayer::update: wrap the difference and
advance by the exponential-decay fraction.  The result is not wrapped. -/
def facingUpdate (rotation targetRotation dt : ℝ) : ℝ :=
  let rotDiff := wrapAngle (targetRotation - rotation)
  let rotT := 1 - Real.exp (-(ROTATION_SPEED * dt))
  rotation + rotDiff * rotT

/-- AIPlayer::handleAICollision: both agents push apart symmetrically, each by
half the overlap, when the XZ distance is in (0.01, 0.7). -/
def handleAICollision (self other : AIPlayerData) : AIPlayerData × AIPlayerData :=
  let toOther : Vec3 := ⟨other.position.x - self.position.x, 0,
                         other.position.z - self.position.z⟩
  let dist := toOther.length
  if dist < 0.7 ∧ dist > 0.01 then
    let pushDir := toOther.normalize
    ({ self with position := self.position - ((0.7 - dist) * 0.5) • pushDir },
     { other with position := other.position + ((0.7 - dist) * 0.5) • pushDir })
  else (self, other)

end AIPlayer

namespace AIManager

/-- AIManager::createTeams: the fixed 11-agent roster (red goalkeeper, two red
defenders, two red midfielders, one red forward, blue goalkeeper, two blue
defenders, two blue midfielders), with the two per-side loops unrolled
(-12 + i*24 gives -12, 12 and -15 + i*30 gives -15, 15).  The fieldLength
parameter of the source is unused. -/
def createTeams (_fieldLength : ℝ) : List AIPlayerData :=
  [ AIPlayer.setTeam (AIPlayer.setHomePosition AIPlayer.init ⟨-45, 0, 0⟩) 0,
    AIPlayer.setTeam (AIPlayer.setHomePosition AIPlayer.init ⟨-35, 0, -12⟩) 0,
    AIPlayer.setTeam (AIPlayer.setHomePosition AIPlayer.init ⟨-35, 0, 12⟩) 0,
    AIPlayer.setTeam (AIPlayer.setHomePosition AIPlayer.init ⟨-15, 0, -15⟩) 0,
    AIPlayer.setTeam (AIPlayer.setHomePosition AIPlayer.init ⟨-15, 0, 15⟩) 0,
    AIPlayer.setTeam (AIPlayer.setHomePosition AIPlayer.init ⟨-5, 0, 0⟩) 0,
    AIPlayer.setTeam (AIPlayer.setHomePosition AIPlayer.init ⟨45, 0, 0⟩) 1,
    AIPlayer.setTeam (AIPlayer.setHomePosition AIPlayer.init ⟨35, 0, -12⟩) 1,
    AIPlayer.setTeam (AIPlayer.setHomePosition AIPlayer.init ⟨35, 0, 12⟩) 1,
    AIPlayer.setTeam (AIPlayer.setHomePosition AIPlayer.init ⟨15, 0, -15⟩) 1,
    AIPlayer.setTeam (AIPlayer.setHomePosition AIPlayer.init ⟨15, 0, 15⟩) 1 ]

/-- The loop body of the first loop of AIManager::findClosestChasers; the
accumulator is (closestRedIdx, closestRedDist, closestBlueIdx, closestBlueDist)
with the -1 / 999 initial sentinels, and an agent is treated as a goalkeeper
exactly when its index is 0 or 6. -/
def chaserFold (ballPos : Vec3) (acc : ℤ × ℝ × ℤ × ℝ) (ie : ℕ × AIPlayerData) :
    ℤ × ℝ × ℤ × ℝ :=
  let dist := AIPlayer.distanceToBall ie.2 ballPos
  if ie.2.team = 0 ∧ ¬(ie.1 = 0 ∨ ie.1 = 6) then
    if dist < acc.2.1 then ((ie.1 : ℤ), dist, acc.2.2.1, acc.2.2.2) else acc
  else if ie.2.team = 1 ∧ ¬(ie.1 = 0 ∨ ie.1 = 6) then
    if dist < acc.2.2.2 then (acc.1, acc.2.1, (ie.1 : ℤ), dist) else acc
  else acc

/-- AIManager::findClosestChasers: select the closest non-goalkeeper per team,
then set the chaser flag of exactly the selected indices. -/
def findClosestChasers (players : List AIPlayerData) (ballPos : Vec3) :
    List AIPlayerData :=
  let r := players.enum.foldl (chaserFold ballPos) (-1, 999, -1, 999)
  players.enum.map fun ie =>
    { ie.2 with isClosestChaser := decide ((ie.1 : ℤ) = r.1 ∨ (ie.1 : ℤ) = r.2.2.1) }

end AIManager

/-- The chaser flags of a roster, in order. -/
def chaserFlags (players : List AIPlayerData) : List Bool :=
  players.map AIPlayerData.isClosestChaser

/-- Modelled from the spec: the Human Controller exponential turn model with a
generic turn rate — wrap the angle difference to the canonical range, advance
the facing by that difference times 1 - e^(-turnRate*dt), and wrap the
resulting facing back into the canonical range. -/
def humanTurnModelSpec (turnRate rotation targetRotation dt : ℝ) : ℝ :=
  wrapAngle (rotation + wrapAngle (targetRotation - rotation) *
    (1 - Real.exp (-(turnRate * dt))))

/-- Generic selection step: the one-team projection of the chaser fold, used
to reason about the running strict minimum. -/
def selStep {α : Type} (q : ℕ → α → Prop) [∀ i a, Decidable (q i a)] (d : α → ℝ)
    (acc : ℤ × ℝ) (ia : ℕ × α) : ℤ × ℝ :=
  if q ia.1 ia.2 ∧ d ia.2 < acc.2 then ((ia.1 : ℤ), d ia.2) else acc

/-! Shared concrete states used by witnesses and counterexamples. -/

/-- A freshly reset ball at center field. -/
def ballInit : BallState := ⟨⟨0, 0.5, 0⟩, ⟨0, 0, 0⟩, ⟨0, 0, 0⟩, 0⟩

/-- A match state in the Celebrating phase (goal flag set). -/
def scoredMatch : MatchState := ⟨105, 68, 7.32, 2.44, 2, 1, true, 1.5, 0⟩

/-- A ball resting at the resting height with no velocity and no spin. -/
def restBall : BallState :=
  ⟨⟨0, BallPhysics.BALL_RADIUS, 0⟩, ⟨0, 0, 0⟩, ⟨0, 0, 0⟩, 0⟩

/-- An airborne ball with spin magnitude exactly at the 0.1 threshold. -/
def spinBall : BallState := ⟨⟨0, 1, 0⟩, ⟨5, 0, 0⟩, ⟨0.1, 0, 0⟩, 0⟩

/-- A ball beyond the side line, outside the goal window. -/
def sideBall : BallState := ⟨⟨0, 0.22, 36⟩, ⟨0, 0, 5⟩, ⟨1, 1, 1⟩, 0⟩

/-- A stationary ball one meter from the origin (inside kick range). -/
def ballNear : BallState := ⟨⟨1, 0, 0⟩, ⟨0, 0, 0⟩, ⟨0, 0, 0⟩, 0⟩

/-- A stationary ball two meters from the origin (outside kick range). -/
def ballFar : BallState := ⟨⟨2, 0, 0⟩, ⟨0, 0, 0⟩, ⟨0, 0, 0⟩, 0⟩

/-- A player at the origin facing -Z, in the middle of a kick animation. -/
def cooldownPlayer : PlayerState :=
  ⟨⟨0, 0, 0⟩, ⟨0, 0, 0⟩, 0, 0, ⟨0, 0, 0⟩, false, 0, 0.3, true⟩

/-- A player at the origin facing -Z, idle. -/
def kickerPlayer : PlayerState :=
  ⟨⟨0, 0, 0⟩, ⟨0, 0, 0⟩, 0, 0, ⟨0, 0, 0⟩, false, 0, 0, false⟩

/-- An idle AI agent at the origin. -/
def agentA : AIPlayerData :=
  ⟨⟨0, 0, 0⟩, ⟨0, 0, 0⟩, ⟨0, 0, 0⟩, 0, 0, 0, 0, 0, false, false, false⟩

/-- An idle AI agent half a meter from agentA (overlapping). -/
def agentB : AIPlayerData :=
  ⟨⟨0.5, 0, 0⟩, ⟨0, 0, 0⟩, ⟨0, 0, 0⟩, 0, 0, 0, 0, 0, false, false, false⟩

/-- An idle AI agent one meter from agentA (not overlapping). -/
def agentC : AIPlayerData :=
  ⟨⟨1, 0, 0⟩, ⟨0, 0, 0⟩, ⟨0, 0, 0⟩, 0, 0, 0, 0, 0, false, false, false⟩

/-- The qualification predicate of the red selection in
AIManager::findClosestChasers: on team 0 and not at a goalkeeper index. -/
def qRed (i : ℕ) (p : AIPlayerData) : Prop := p.team = 0 ∧ ¬(i = 0 ∨ i = 6)

instance (i : ℕ) (p : AIPlayerData) : Decidable (qRed i p) :=
  inferInstanceAs (Decidable (_ ∧ _))

/-- The qualification predicate of the blue selection in
AIManager::findClosestChasers: on team 1 and not at a goalkeeper index. -/
def qBlue (i : ℕ) (p : AIPlayerData) : Prop := p.team = 1 ∧ ¬(i = 0 ∨ i = 6)

instance (i : ℕ) (p : AIPlayerData) : Decidable (qBlue i p) :=
  inferInstanceAs (Decidable (_ ∧ _))

/-! Component lemmas for the vector operations. -/

@[simp] lemma Vec3.add_x (a b : Vec3) : (a + b).x = a.x + b.x := rfl
@[simp] lemma Vec3.add_y (a b : Vec3) : (a + b).y = a.y + b.y := rfl
@[simp] lemma Vec3.add_z (a b : Vec3) : (a + b).z = a.z + b.z := rfl
@[simp] lemma Vec3.sub_x (a b : Vec3) : (a - b).x = a.x - b.x := rfl
@[simp] lemma Vec3.sub_y (a b : Vec3) : (a - b).y = a.y - b.y := rfl
@[simp] lemma Vec3.sub_z (a b : Vec3) : (a - b).z = a.z - b.z := rfl
@[simp] lemma Vec3.neg_x (a : Vec3) : (-a).x = -a.x := rfl
@[simp] lemma Vec3.neg_y (a : Vec3) : (-a).y = -a.y := rfl
@[simp] lemma Vec3.neg_z (a : Vec3) : (-a).z = -a.z := rfl
@[simp] lemma Vec3.smul_x (c : ℝ) (v : Vec3) : (c • v).x = c * v.x := rfl
@[simp] lemma Vec3.smul_y (c : ℝ) (v : Vec3) : (c • v).y = c * v.y := rfl
@[simp] lemma Vec3.smul_z (c : ℝ) (v : Vec3) : (c • v).z = c * v.z := rfl

lemma Vec3.length_nonneg (v : Vec3) : 0 ≤ v.length := Real.sqrt_nonneg _

lemma Vec3.length_smul (c : ℝ) (v : Vec3) : (c • v).length = |c| * v.length := by
  simp only [Vec3.length, Vec3.smul_x, Vec3.smul_y, Vec3.smul_z, mul_pow]
  rw [show c ^ 2 * v.x ^ 2 + c ^ 2 * v.y ^ 2 + c ^ 2 * v.z ^ 2 =
      c ^ 2 * (v.x ^ 2 + v.y ^ 2 + v.z ^ 2) by ring,
    Real.sqrt_mul (sq_nonneg c), Real.sqrt_sq_eq_abs]

lemma Vec3.length_pos (v : Vec3) (h : v.length ≠ 0) : 0 < v.length :=
  lt_of_le_of_ne (Vec3.length_nonneg v) (Ne.symm h)

lemma Vec3.normalize_length (v : Vec3) (h : v.length ≠ 0) : v.normalize.length = 1 := by
  have hpos := Vec3.length_pos v h
  rw [Vec3.normalize, Vec3.length_smul, abs_of_pos (by positivity), one_div,
    inv_mul_cancel₀ h]

@[simp] lemma Vec3.smul_zero_vec (c : ℝ) : c • (⟨0, 0, 0⟩ : Vec3) = ⟨0, 0, 0⟩ := by
  ext <;> simp

lemma Vec3.length_zero_vec : Vec3.length ⟨0, 0, 0⟩ = 0 := by
  simp [Vec3.length]


/-! Section: C1 -/

/-- Claim C1: if the goal-scored flag is already set, Match::checkGoal returns
false and leaves the whole match state (scores, flag, celebration timer,
last-scoring team) unchanged, however often it is called, and
Match::resetAfterGoal clears the flag. -/
theorem C1_checkGoal_idempotent_when_flagged (m : MatchState) (pos : Vec3) (b : BallState)
    (h : m.goalScored = true) :
    (Match.checkGoal m pos).1 = false ∧ (Match.checkGoal m pos).2 = m ∧
    (∀ n : ℕ, (fun s => (Match.checkGoal s pos).2)^[n] m = m) ∧
    (Match.resetAfterGoal m b).1.goalScored = false := by
  have h1 : Match.checkGoal m pos = (false, m) := by
    unfold Match.checkGoal
    rw [if_pos h]
  refine ⟨by rw [h1], by rw [h1], ?_, rfl⟩
  intro n
  exact Function.iterate_fixed (by rw [h1]) n

/-- Witness for C1 at a concrete flagged state with the ball deep in the
right goal mouth. -/
theorem C1_witness :
    scoredMatch.goalScored = true ∧
    (Match.checkGoal scoredMatch ⟨53.5, 1, 0⟩).1 = false ∧
    (Match.checkGoal scoredMatch ⟨53.5, 1, 0⟩).2 = scoredMatch ∧
    (fun s => (Match.checkGoal s ⟨53.5, 1, 0⟩).2)^[5] scoredMatch = scoredMatch ∧
    (Match.resetAfterGoal scoredMatch ballInit).1.goalScored = false := by
  have h := C1_checkGoal_idempotent_when_flagged scoredMatch ⟨53.5, 1, 0⟩ ballInit rfl
  exact ⟨rfl, h.1, h.2.1, h.2.2.1 5, h.2.2.2⟩

/-! Section: C9 -/

lemma checkGoal_scores_mono (m : MatchState) (pos : Vec3) :
    m.scoreLeft ≤ (Match.checkGoal m pos).2.scoreLeft ∧
    m.scoreRight ≤ (Match.checkGoal m pos).2.scoreRight := by
  unfold Match.checkGoal
  split_ifs <;> simp

lemma applyOp_scores_mono (s : MatchState × BallState) (op : MatchOp) :
    s.1.scoreLeft ≤ (applyOp s op).1.scoreLeft ∧
    s.1.scoreRight ≤ (applyOp s op).1.scoreRight := by
  cases op with
  | update dt =>
    simp only [applyOp]
    unfold Match.update Match.resetAfterGoal
    split_ifs with hg
    · dsimp only
      split_ifs <;> exact ⟨le_refl _, le_refl _⟩
    · exact checkGoal_scores_mono _ _
  | checkGoal pos =>
    simpa only [applyOp] using checkGoal_scores_mono s.1 pos
  | resetAfterGoal =>
    simp [applyOp, Match.resetAfterGoal]

lemma applyOps_scores_mono (ops : List MatchOp) :
    ∀ s : MatchState × BallState,
      s.1.scoreLeft ≤ (applyOps s ops).1.scoreLeft ∧
      s.1.scoreRight ≤ (applyOps s ops).1.scoreRight := by
  induction ops with
  | nil => intro s; exact ⟨le_refl _, le_refl _⟩
  | cons op rest ih =>
    intro s
    have h1 := applyOp_scores_mono s op
    have h2 := ih (applyOp s op)
    simp only [applyOps, List.foldl_cons] at h2 ⊢
    exact ⟨le_trans h1.1 h2.1, le_trans h1.2 h2.2⟩

/-- Claim C9: across any sequence of Match::update, Match::checkGoal and
Match::resetAfterGoal calls the two scores never decrease; a successful
checkGoal increments exactly one score by exactly 1, a failed checkGoal and
resetAfterGoal change neither score, and Match::reset zeroes both. -/
theorem C9_scores_monotone :
    (∀ (s : MatchState × BallState) (ops : List MatchOp),
       s.1.scoreLeft ≤ (applyOps s ops).1.scoreLeft ∧
       s.1.scoreRight ≤ (applyOps s ops).1.scoreRight) ∧
    (∀ (m : MatchState) (pos : Vec3), (Match.checkGoal m pos).1 = true →
       ((Match.checkGoal m pos).2.scoreLeft = m.scoreLeft ∧
        (Match.checkGoal m pos).2.scoreRight = m.scoreRight + 1) ∨
       ((Match.checkGoal m pos).2.scoreLeft = m.scoreLeft + 1 ∧
        (Match.checkGoal m pos).2.scoreRight = m.scoreRight)) ∧
    (∀ (m : MatchState) (pos : Vec3), (Match.checkGoal m pos).1 = false →
       (Match.checkGoal m pos).2.scoreLeft = m.scoreLeft ∧
       (Match.checkGoal m pos).2.scoreRight = m.scoreRight) ∧
    (∀ (m : MatchState) (b : BallState),
       (Match.resetAfterGoal m b).1.scoreLeft = m.scoreLeft ∧
       (Match.resetAfterGoal m b).1.scoreRight = m.scoreRight) ∧
    (∀ m : MatchState, (Match.reset m).scoreLeft = 0 ∧ (Match.reset m).scoreRight = 0) := by
  refine ⟨fun s ops => applyOps_scores_mono ops s, ?_, ?_, fun m b => ⟨rfl, rfl⟩,
    fun m => ⟨rfl, rfl⟩⟩
  · intro m pos h
    unfold Match.checkGoal at h ⊢
    split_ifs at h ⊢ <;> simp_all
  · intro m pos h
    unfold Match.checkGoal at h ⊢
    split_ifs at h ⊢ <;> simp_all

/-! Section: Ball-physics stage lemmas -/

@[simp] lemma Vec3.length_mk (a b c : ℝ) :
    Vec3.length ⟨a, b, c⟩ = Real.sqrt (a ^ 2 + b ^ 2 + c ^ 2) := rfl

lemma handleGroundCollision_y_ge (b : BallState) :
    BallPhysics.BALL_RADIUS ≤ (BallPhysics.handleGroundCollision b).position.y := by
  unfold BallPhysics.handleGroundCollision
  dsimp only
  split_ifs with h1 h2
  · exact le_refl _
  · exact le_refl _
  · exact le_of_not_lt h1

lemma applyRollingFriction_position (b : BallState) (dt : ℝ) :
    (BallPhysics.applyRollingFriction b dt).position = b.position := by
  unfold BallPhysics.applyRollingFriction
  dsimp only
  split_ifs <;> rfl

lemma handleFieldBoundaries_position_y (b : BallState) (bounds : FieldBounds) :
    (BallPhysics.handleFieldBoundaries b bounds).position.y = b.position.y := by
  unfold BallPhysics.handleFieldBoundaries
  dsimp only
  split_ifs <;> rfl

lemma applyGravity_angularVelocity (b : BallState) (dt : ℝ) :
    (BallPhysics.applyGravity b dt).angularVelocity = b.angularVelocity := rfl

lemma applyAirDrag_angularVelocity (b : BallState) (dt : ℝ) :
    (BallPhysics.applyAirDrag b dt).angularVelocity = b.angularVelocity := by
  unfold BallPhysics.applyAirDrag
  dsimp only
  split_ifs <;> rfl

lemma dragStage_angularVelocity (b0 b : BallState) (dt : ℝ) :
    (BallPhysics.dragStage b0 b dt).angularVelocity = b.angularVelocity := by
  unfold BallPhysics.dragStage
  split_ifs
  · exact applyAirDrag_angularVelocity b dt
  · rfl

lemma dragStage_skip (ball0 b : BallState) (dt : ℝ)
    (h : ¬ (BallPhysics.isInAir ball0 ∧ ball0.velocity.length > 0.1)) :
    BallPhysics.dragStage ball0 b dt = b := by
  unfold BallPhysics.dragStage
  rw [if_neg h]

lemma magnusStage_skip (ball0 b : BallState) (dt : ℝ)
    (h : b.angularVelocity.length ≤ 0.1 ∨ ball0.velocity.length ≤ 1.0 ∨
         ¬ BallPhysics.isInAir ball0) :
    BallPhysics.magnusStage ball0 b dt = b := by
  unfold BallPhysics.magnusStage
  rw [if_neg]
  rintro ⟨hair, hspin, hspeed⟩
  rcases h with h | h | h
  · exact absurd hspin (not_lt.mpr h)
  · exact absurd hspeed (not_lt.mpr h)
  · exact h hair

lemma rotationStage_skip (ball0 b : BallState) (dt : ℝ)
    (h : ¬ ball0.velocity.length > 0.1) :
    BallPhysics.rotationStage ball0 b dt = b := by
  unfold BallPhysics.rotationStage
  rw [if_neg h]

lemma applySpinDecay_zero_spin (b : BallState) (dt : ℝ)
    (h : b.angularVelocity = ⟨0, 0, 0⟩) :
    BallPhysics.applySpinDecay b dt = b := by
  unfold BallPhysics.applySpinDecay
  split_ifs <;> rw [h, Vec3.smul_zero_vec] <;> exact BallState.ext rfl rfl h.symm rfl

lemma applyRollingFriction_zero_horizontal (b : BallState) (dt : ℝ)
    (hy : b.position.y ≤ BallPhysics.BALL_RADIUS + 0.05)
    (hvx : b.velocity.x = 0) (hvz : b.velocity.z = 0) :
    BallPhysics.applyRollingFriction b dt = b := by
  unfold BallPhysics.applyRollingFriction
  dsimp only
  rw [if_pos hy, hvx, hvz]
  rw [if_neg (by simp; norm_num)]
  exact BallState.ext rfl (Vec3.ext hvx.symm rfl hvz.symm) rfl rfl

lemma handleFieldBoundaries_inside (b : BallState) (bounds : FieldBounds)
    (hx : ¬ |b.position.x| > bounds.length / 2)
    (hz : ¬ |b.position.z| > bounds.width / 2 + 0.5) :
    BallPhysics.handleFieldBoundaries b bounds = b := by
  unfold BallPhysics.handleFieldBoundaries
  dsimp only
  rw [if_neg hx, if_neg hz]

/-! Section: C2 -/

/-- Claim C2: for every ball state and dt ≥ 0, one call to BallPhysics::update
leaves the ball height at least the resting height BALL_RADIUS. -/
theorem C2_ground_clamp (b : BallState) (dt : ℝ) (bounds : FieldBounds) (hdt : 0 ≤ dt) :
    BallPhysics.BALL_RADIUS ≤ (BallPhysics.update b dt bounds).position.y := by
  unfold BallPhysics.update
  rw [handleFieldBoundaries_position_y, applyRollingFriction_position]
  exact handleGroundCollision_y_ge _

/-- Witness for C2 at the freshly reset ball with dt = 0. -/
theorem C2_witness :
    (0 : ℝ) ≤ 0 ∧
    BallPhysics.BALL_RADIUS ≤ (BallPhysics.update ballInit 0 defaultBounds).position.y :=
  ⟨le_refl 0, C2_ground_clamp ballInit 0 defaultBounds (le_refl 0)⟩

/-! Section: C3 -/

/-- Counterexample to C3 as stated: at dt = 1 a resting ball does not stay
put — the gravity impulse accumulated during the frame (9.81 m/s) exceeds the
0.5 bounce threshold, so the ground stage reflects it and the updated
velocity has a positive vertical component (9.81 * 0.7 = 6.867). -/
theorem C3_counterexample :
    restBall.velocity = ⟨0, 0, 0⟩ ∧
    (BallPhysics.update restBall 1 defaultBounds).velocity.y = 6.867 := by
  constructor
  · rfl
  · have hair : ¬ BallPhysics.isInAir restBall := by
      norm_num [BallPhysics.isInAir, restBall, BallPhysics.BALL_RADIUS]
    have hlen0 : restBall.velocity.length = 0 := by
      simp [restBall]
    unfold BallPhysics.update
    rw [dragStage_skip _ _ _ (fun hc => hair hc.1),
      magnusStage_skip _ _ _ (Or.inr (Or.inr hair))]
    have hgrav : BallPhysics.applyGravity restBall 1 =
        ⟨⟨0, BallPhysics.BALL_RADIUS, 0⟩, ⟨0, -9.81, 0⟩, ⟨0, 0, 0⟩, 0⟩ := by
      unfold BallPhysics.applyGravity restBall BallPhysics.GRAVITY
      ext <;> norm_num
    rw [hgrav, applySpinDecay_zero_spin _ _ rfl]
    have hint : BallPhysics.integrateStage
        ⟨⟨0, BallPhysics.BALL_RADIUS, 0⟩, ⟨0, -9.81, 0⟩, ⟨0, 0, 0⟩, 0⟩ 1 =
        ⟨⟨0, BallPhysics.BALL_RADIUS - 9.81, 0⟩, ⟨0, -9.81, 0⟩, ⟨0, 0, 0⟩, 0⟩ := by
      unfold BallPhysics.integrateStage
      ext <;> simp <;> try ring
    rw [hint, rotationStage_skip _ _ _ (by rw [hlen0]; norm_num)]
    have hground : BallPhysics.handleGroundCollision
        ⟨⟨0, BallPhysics.BALL_RADIUS - 9.81, 0⟩, ⟨0, -9.81, 0⟩, ⟨0, 0, 0⟩, 0⟩ =
        ⟨⟨0, BallPhysics.BALL_RADIUS, 0⟩, ⟨0, 6.867, 0⟩, ⟨0, 0, 0⟩, 0⟩ := by
      unfold BallPhysics.handleGroundCollision BallPhysics.BOUNCE_FACTOR
      rw [if_pos (by norm_num [BallPhysics.BALL_RADIUS]), if_pos (by norm_num)]
      ext <;> norm_num
    rw [hground,
      applyRollingFriction_zero_horizontal _ _ (by norm_num) rfl rfl,
      handleFieldBoundaries_inside _ _ (by norm_num [defaultBounds])
        (by norm_num [defaultBounds])]

/-- Claim C3 (amended): a resting ball inside the boundary-clamp region is an
exact fixed point of BallPhysics::update for every dt ≥ 0 whose one-frame
gravity impulse GRAVITY * dt stays within the 0.5 bounce threshold, and hence
stays stationary over any number of frames; for larger dt the ground stage
bounces the accumulated impulse instead. -/
theorem C3_rest_fixed_point_small_dt (x z rot dt : ℝ) (bounds : FieldBounds)
    (hdt : 0 ≤ dt) (hsmall : BallPhysics.GRAVITY * dt ≤ 0.5)
    (hx : |x| ≤ bounds.length / 2) (hz : |z| ≤ bounds.width / 2 + 0.5) :
    BallPhysics.update ⟨⟨x, BallPhysics.BALL_RADIUS, z⟩, ⟨0, 0, 0⟩, ⟨0, 0, 0⟩, rot⟩ dt bounds =
      ⟨⟨x, BallPhysics.BALL_RADIUS, z⟩, ⟨0, 0, 0⟩, ⟨0, 0, 0⟩, rot⟩ ∧
    ∀ n : ℕ, (fun b => BallPhysics.update b dt bounds)^[n]
        ⟨⟨x, BallPhysics.BALL_RADIUS, z⟩, ⟨0, 0, 0⟩, ⟨0, 0, 0⟩, rot⟩ =
      ⟨⟨x, BallPhysics.BALL_RADIUS, z⟩, ⟨0, 0, 0⟩, ⟨0, 0, 0⟩, rot⟩ := by
  have hair : ¬ BallPhysics.isInAir ⟨⟨x, BallPhysics.BALL_RADIUS, z⟩, ⟨0, 0, 0⟩, ⟨0, 0, 0⟩, rot⟩ := by
    norm_num [BallPhysics.isInAir, BallPhysics.BALL_RADIUS]
  have hlen0 : Vec3.length ⟨(0 : ℝ), 0, 0⟩ = 0 := Vec3.length_zero_vec
  suffices hfix : BallPhysics.update
      ⟨⟨x, BallPhysics.BALL_RADIUS, z⟩, ⟨0, 0, 0⟩, ⟨0, 0, 0⟩, rot⟩ dt bounds =
      ⟨⟨x, BallPhysics.BALL_RADIUS, z⟩, ⟨0, 0, 0⟩, ⟨0, 0, 0⟩, rot⟩ by
    exact ⟨hfix, fun n => Function.iterate_fixed hfix n⟩
  unfold BallPhysics.update
  rw [dragStage_skip _ _ _ (fun hc => hair hc.1),
    magnusStage_skip _ _ _ (Or.inr (Or.inr hair))]
  have hgrav : BallPhysics.applyGravity
      ⟨⟨x, BallPhysics.BALL_RADIUS, z⟩, ⟨0, 0, 0⟩, ⟨0, 0, 0⟩, rot⟩ dt =
      ⟨⟨x, BallPhysics.BALL_RADIUS, z⟩, ⟨0, -(BallPhysics.GRAVITY * dt), 0⟩, ⟨0, 0, 0⟩, rot⟩ := by
    unfold BallPhysics.applyGravity
    ext <;> norm_num
  rw [hgrav, applySpinDecay_zero_spin _ _ rfl]
  have hint : BallPhysics.integrateStage
      ⟨⟨x, BallPhysics.BALL_RADIUS, z⟩, ⟨0, -(BallPhysics.GRAVITY * dt), 0⟩, ⟨0, 0, 0⟩, rot⟩ dt =
      ⟨⟨x, BallPhysics.BALL_RADIUS - BallPhysics.GRAVITY * dt ^ 2, z⟩,
        ⟨0, -(BallPhysics.GRAVITY * dt), 0⟩, ⟨0, 0, 0⟩, rot⟩ := by
    unfold BallPhysics.integrateStage
    ext <;> simp <;> try ring
  rw [hint, rotationStage_skip _ _ _ (by simp; norm_num)]
  rcases eq_or_lt_of_le hdt with heq | hpos
  · have h0 : (⟨⟨x, BallPhysics.BALL_RADIUS - BallPhysics.GRAVITY * dt ^ 2, z⟩,
        ⟨0, -(BallPhysics.GRAVITY * dt), 0⟩, ⟨0, 0, 0⟩, rot⟩ : BallState) =
        ⟨⟨x, BallPhysics.BALL_RADIUS, z⟩, ⟨0, 0, 0⟩, ⟨0, 0, 0⟩, rot⟩ := by
      ext <;> simp [← heq]
    rw [h0]
    have hg : BallPhysics.handleGroundCollision
        ⟨⟨x, BallPhysics.BALL_RADIUS, z⟩, ⟨0, 0, 0⟩, ⟨0, 0, 0⟩, rot⟩ =
        ⟨⟨x, BallPhysics.BALL_RADIUS, z⟩, ⟨0, 0, 0⟩, ⟨0, 0, 0⟩, rot⟩ := by
      unfold BallPhysics.handleGroundCollision
      dsimp only
      rw [if_neg (lt_irrefl _)]
    rw [hg, applyRollingFriction_zero_horizontal _ _ (by norm_num) rfl rfl,
      handleFieldBoundaries_inside _ _ (not_lt.mpr hx) (not_lt.mpr hz)]
  · have hg : BallPhysics.handleGroundCollision
        ⟨⟨x, BallPhysics.BALL_RADIUS - BallPhysics.GRAVITY * dt ^ 2, z⟩,
          ⟨0, -(BallPhysics.GRAVITY * dt), 0⟩, ⟨0, 0, 0⟩, rot⟩ =
        ⟨⟨x, BallPhysics.BALL_RADIUS, z⟩, ⟨0, 0, 0⟩, ⟨0, 0, 0⟩, rot⟩ := by
      have hsq : 0 < BallPhysics.GRAVITY * dt ^ 2 := by
        unfold BallPhysics.GRAVITY
        positivity
      unfold BallPhysics.handleGroundCollision
      dsimp only
      rw [if_pos (by linarith), if_neg (by
        unfold BallPhysics.GRAVITY at hsmall ⊢
        intro hcon
        norm_num at hcon
        linarith)]
    rw [hg, applyRollingFriction_zero_horizontal _ _ (by norm_num) rfl rfl,
      handleFieldBoundaries_inside _ _ (not_lt.mpr hx) (not_lt.mpr hz)]

/-- Witness for C3 (amended) at dt = 0.05 (impulse 0.4905 ≤ 0.5). -/
theorem C3_witness :
    (0 : ℝ) ≤ 0.05 ∧ BallPhysics.GRAVITY * 0.05 ≤ 0.5 ∧
    |(1 : ℝ)| ≤ defaultBounds.length / 2 ∧ |(2 : ℝ)| ≤ defaultBounds.width / 2 + 0.5 ∧
    BallPhysics.update ⟨⟨1, BallPhysics.BALL_RADIUS, 2⟩, ⟨0, 0, 0⟩, ⟨0, 0, 0⟩, 0.5⟩
        0.05 defaultBounds =
      ⟨⟨1, BallPhysics.BALL_RADIUS, 2⟩, ⟨0, 0, 0⟩, ⟨0, 0, 0⟩, 0.5⟩ ∧
    (fun b => BallPhysics.update b 0.05 defaultBounds)^[3]
        ⟨⟨1, BallPhysics.BALL_RADIUS, 2⟩, ⟨0, 0, 0⟩, ⟨0, 0, 0⟩, 0.5⟩ =
      ⟨⟨1, BallPhysics.BALL_RADIUS, 2⟩, ⟨0, 0, 0⟩, ⟨0, 0, 0⟩, 0.5⟩ := by
  have h1 : (0 : ℝ) ≤ 0.05 := by norm_num
  have h2 : BallPhysics.GRAVITY * 0.05 ≤ 0.5 := by
    unfold BallPhysics.GRAVITY
    norm_num
  have h3 : |(1 : ℝ)| ≤ defaultBounds.length / 2 := by
    norm_num [defaultBounds]
  have h4 : |(2 : ℝ)| ≤ defaultBounds.width / 2 + 0.5 := by
    norm_num [defaultBounds]
  have h := C3_rest_fixed_point_small_dt 1 2 0.5 0.05 defaultBounds h1 h2 h3 h4
  exact ⟨h1, h2, h3, h4, h.1, h.2 3⟩

/-! Section: C6 -/

/-- Claim C6: BallPhysics::update applies no Magnus force — it coincides with
the pipeline whose Magnus stage is removed — whenever the angular velocity
magnitude is ≤ 0.1, or the pre-update speed is ≤ 1.0, or the ball is not
airborne; the thresholds are strict, so this includes spin exactly 0.1 and
speed exactly 1.0. -/
theorem C6_magnus_thresholds (ball : BallState) (dt : ℝ) (bounds : FieldBounds)
    (h : ball.angularVelocity.length ≤ 0.1 ∨ ball.velocity.length ≤ 1.0 ∨
         ¬ BallPhysics.isInAir ball) :
    BallPhysics.update ball dt bounds = BallPhysics.updateNoMagnus ball dt bounds := by
  unfold BallPhysics.update BallPhysics.updateNoMagnus
  rw [magnusStage_skip]
  rcases h with h | h | h
  · left
    rw [dragStage_angularVelocity, applyGravity_angularVelocity]
    exact h
  · right; left; exact h
  · right; right; exact h

/-- Witness for C6 at an airborne fast ball whose spin magnitude is exactly
the 0.1 threshold. -/
theorem C6_witness :
    spinBall.angularVelocity.length ≤ 0.1 ∧
    BallPhysics.update spinBall 0.016 defaultBounds =
      BallPhysics.updateNoMagnus spinBall 0.016 defaultBounds := by
  have hlen : spinBall.angularVelocity.length ≤ 0.1 := by
    have : spinBall.angularVelocity.length = 0.1 := by
      show Vec3.length ⟨0.1, 0, 0⟩ = 0.1
      rw [Vec3.length_mk, show ((0.1 : ℝ) ^ 2 + 0 ^ 2 + 0 ^ 2) = (0.1 : ℝ) ^ 2 by norm_num,
        Real.sqrt_sq (by norm_num)]
    rw [this]
  exact ⟨hlen, C6_magnus_thresholds spinBall 0.016 defaultBounds (Or.inl hlen)⟩

/-! Section: C7 -/

/-- Counterexample to the goal-window clause of C7: at the default dimensions
the goal-window test of BallPhysics::handleFieldBoundaries and the one of
Match::handleBoundaryCollision are the same predicate — they do not differ in
the Y condition (both test y below goal height). -/
theorem C7_counterexample :
    BallPhysics.inGoalAreaPhysics defaultBounds = Match.inGoalAreaMatch defaultMatch := by
  funext pos
  simp [BallPhysics.inGoalAreaPhysics, Match.inGoalAreaMatch, defaultBounds, defaultMatch]

/-- Claim C7 (amended): the two boundary layers are inequivalent, but not by
their goal-window tests (which coincide): for a ball beyond a side line,
BallPhysics::handleFieldBoundaries clamps to halfWidth + 0.5 and reflects with
restitution 0.5 while halving the angular velocity, whereas
Match::handleBoundaryCollision clamps to halfWidth - radius and reflects with
restitution 0.6, leaving the angular velocity unchanged, so the resulting
ball states differ. -/
theorem C7_boundary_layers_differ :
    (BallPhysics.handleFieldBoundaries sideBall defaultBounds).position.z = 34.5 ∧
    (Match.handleBoundaryCollision defaultMatch sideBall).position.z = 33.78 ∧
    (BallPhysics.handleFieldBoundaries sideBall defaultBounds).velocity.z = -2.5 ∧
    (Match.handleBoundaryCollision defaultMatch sideBall).velocity.z = -3 ∧
    (BallPhysics.handleFieldBoundaries sideBall defaultBounds).angularVelocity.x = 0.5 ∧
    (Match.handleBoundaryCollision defaultMatch sideBall).angularVelocity.x = 1 ∧
    BallPhysics.handleFieldBoundaries sideBall defaultBounds ≠
      Match.handleBoundaryCollision defaultMatch sideBall := by
  have hphys : (BallPhysics.handleFieldBoundaries sideBall defaultBounds).position.z = 34.5 ∧
      (BallPhysics.handleFieldBoundaries sideBall defaultBounds).velocity.z = -2.5 ∧
      (BallPhysics.handleFieldBoundaries sideBall defaultBounds).angularVelocity.x = 0.5 := by
    norm_num [BallPhysics.handleFieldBoundaries, BallPhysics.inGoalAreaPhysics,
      copysignR, sideBall, defaultBounds]
  have hmatch : (Match.handleBoundaryCollision defaultMatch sideBall).position.z = 33.78 ∧
      (Match.handleBoundaryCollision defaultMatch sideBall).velocity.z = -3 ∧
      (Match.handleBoundaryCollision defaultMatch sideBall).angularVelocity.x = 1 := by
    norm_num [Match.handleBoundaryCollision, Match.inGoalAreaMatch, sideBall,
      defaultMatch, Ball.RADIUS, BallPhysics.BALL_RADIUS]
  refine ⟨hphys.1, hmatch.1, hphys.2.1, hmatch.2.1, hphys.2.2, hmatch.2.2, fun heq => ?_⟩
  have h1 := hphys.1
  rw [heq, hmatch.1] at h1
  norm_num at h1

/-! Section: Wrap-angle and normalization lemmas -/

lemma wrapLoopDown_eq_self (d : ℝ) (h : d ≤ 3.14159) : wrapLoopDown d = d := by
  rw [wrapLoopDown, dif_neg (not_lt.mpr h)]

lemma wrapLoopUp_eq_self (d : ℝ) (h : -3.14159 ≤ d) : wrapLoopUp d = d := by
  rw [wrapLoopUp, dif_neg (not_lt.mpr h)]

lemma wrapAngle_eq_self (d : ℝ) (h1 : -3.14159 ≤ d) (h2 : d ≤ 3.14159) :
    wrapAngle d = d := by
  rw [wrapAngle, wrapLoopDown_eq_self d h2, wrapLoopUp_eq_self d h1]

lemma Vec3.normalize_of_length_one (v : Vec3) (h : v.length = 1) : v.normalize = v := by
  unfold Vec3.normalize
  rw [h]
  ext <;> simp

lemma Vec3.normalize_idem (v : Vec3) (h : v.length ≠ 0) :
    v.normalize.normalize = v.normalize :=
  Vec3.normalize_of_length_one v.normalize (Vec3.normalize_length v h)

/-! Section: C4 -/

/-- The kick-direction vector has length sqrt 1.09 for every facing. -/
lemma kickDir_length (r : ℝ) :
    Vec3.length ⟨-Real.sin r, 0.3, -Real.cos r⟩ = Real.sqrt 1.09 := by
  rw [Vec3.length_mk]
  congr 1
  linear_combination Real.sin_sq_add_cos_sq r

lemma kickDir_length_ne_zero (r : ℝ) :
    Vec3.length ⟨-Real.sin r, 0.3, -Real.cos r⟩ ≠ 0 := by
  rw [kickDir_length]
  exact ne_of_gt (Real.sqrt_pos.mpr (by norm_num))

/-- Counterexample to C4 as stated: Player::tryKick has no cooldown guard.
A player mid-kick (isKicking set, kick-animation timer still running) with the
ball in range gets true from tryKick, where the claim requires false. -/
theorem C4_counterexample :
    cooldownPlayer.isKicking = true ∧ cooldownPlayer.kickAnimationTimer > 0 ∧
    (Player.tryKick cooldownPlayer ballNear false 0).1 = true := by
  have hdist : (ballNear.position - cooldownPlayer.position).length = 1 := by
    simp [Vec3.length, ballNear, cooldownPlayer]
  refine ⟨rfl, by norm_num [cooldownPlayer], ?_⟩
  unfold Player.tryKick
  rw [hdist, if_neg (by norm_num [Player.KICK_RANGE])]

/-- Claim C4 (amended): Player::tryKick returns false exactly when the ball is
at least KICK_RANGE away (there is no cooldown guard), and on that branch it
is a no-op; on success it returns true, the ball velocity becomes the fixed
power (15, or 22 when sprinting) times the unit vector along the facing with
the 0.3 upward component (so its magnitude equals the power, in particular to
within 1e-4, and its vertical component is positive), the spin becomes
(-5 when sprinting else 0, spinY, 0), and the player starts the fixed 0.3 s
kick animation. -/
theorem C4_tryKick_spec (p : PlayerState) (ball : BallState) (sprinting : Bool) (spinY : ℝ) :
    ((ball.position - p.position).length ≥ Player.KICK_RANGE →
      Player.tryKick p ball sprinting spinY = (false, p, ball)) ∧
    ((ball.position - p.position).length < Player.KICK_RANGE →
      (Player.tryKick p ball sprinting spinY).1 = true ∧
      (Player.tryKick p ball sprinting spinY).2.2.velocity =
        (if sprinting then (22 : ℝ) else 15) •
          Vec3.normalize ⟨-Real.sin p.rotation, 0.3, -Real.cos p.rotation⟩ ∧
      (Player.tryKick p ball sprinting spinY).2.2.velocity.length =
        (if sprinting then (22 : ℝ) else 15) ∧
      |(Player.tryKick p ball sprinting spinY).2.2.velocity.length -
        (if sprinting then (22 : ℝ) else 15)| ≤ 1e-4 ∧
      (Player.tryKick p ball sprinting spinY).2.2.velocity.y > 0 ∧
      (Player.tryKick p ball sprinting spinY).2.2.angularVelocity =
        ⟨(if sprinting then (-5 : ℝ) else 0), spinY, 0⟩ ∧
      (Player.tryKick p ball sprinting spinY).2.1 =
        { p with isKicking := true, kickAnimationTimer := 0.3 }) := by
  constructor
  · intro hge
    unfold Player.tryKick
    rw [if_pos hge]
  · intro hlt
    have hneg : ¬ ((ball.position - p.position).length ≥ Player.KICK_RANGE) := not_le.mpr hlt
    have hne := kickDir_length_ne_zero p.rotation
    have hL : Vec3.length ⟨-Real.sin p.rotation, 0.3, -Real.cos p.rotation⟩ = Real.sqrt 1.09 :=
      kickDir_length p.rotation
    have hLpos : (0 : ℝ) < Real.sqrt 1.09 := Real.sqrt_pos.mpr (by norm_num)
    have hpow : (0 : ℝ) < if sprinting then (22 : ℝ) else 15 := by
      cases sprinting <;> norm_num
    unfold Player.tryKick Ball.kick
    rw [if_neg hneg]
    dsimp only
    rw [Vec3.normalize_idem _ hne]
    refine ⟨rfl, rfl, ?_, ?_, ?_, rfl, rfl⟩
    · rw [Vec3.length_smul, Vec3.normalize_length _ hne, mul_one, abs_of_pos hpow]
    · rw [Vec3.length_smul, Vec3.normalize_length _ hne, mul_one, abs_of_pos hpow,
        sub_self, abs_zero]
      norm_num
    · show (0 : ℝ) < _ * (Vec3.normalize _).y
      unfold Vec3.normalize
      rw [Vec3.smul_y]
      apply mul_pos hpow
      rw [hL]
      positivity

/-- Witness for C4 (amended): both branches at concrete states — a ball two
meters away is out of range (no-op), a ball one meter away is kicked with
speed 15. -/
theorem C4_witness :
    (ballFar.position - kickerPlayer.position).length ≥ Player.KICK_RANGE ∧
    Player.tryKick kickerPlayer ballFar false 0 = (false, kickerPlayer, ballFar) ∧
    (ballNear.position - kickerPlayer.position).length < Player.KICK_RANGE ∧
    (Player.tryKick kickerPlayer ballNear false 2).1 = true ∧
    (Player.tryKick kickerPlayer ballNear false 2).2.2.velocity.length =
      (if (false : Bool) then (22 : ℝ) else 15) ∧
    (Player.tryKick kickerPlayer ballNear false 2).2.2.angularVelocity =
      ⟨(if (false : Bool) then (-5 : ℝ) else 0), 2, 0⟩ := by
  have hfar : (ballFar.position - kickerPlayer.position).length = 2 := by
    have : ((2 : ℝ) - 0) ^ 2 + (0 - 0) ^ 2 + (0 - 0) ^ 2 = 2 ^ 2 := by norm_num
    simp only [ballFar, kickerPlayer, Vec3.sub_x, Vec3.sub_y, Vec3.sub_z, Vec3.length]
    rw [this, Real.sqrt_sq (by norm_num)]
  have hnear : (ballNear.position - kickerPlayer.position).length = 1 := by
    simp [Vec3.length, ballNear, kickerPlayer]
  have hge : (ballFar.position - kickerPlayer.position).length ≥ Player.KICK_RANGE := by
    rw [hfar]
    norm_num [Player.KICK_RANGE]
  have hlt : (ballNear.position - kickerPlayer.position).length < Player.KICK_RANGE := by
    rw [hnear]
    norm_num [Player.KICK_RANGE]
  have h1 := (C4_tryKick_spec kickerPlayer ballFar false 0).1 hge
  have h2 := (C4_tryKick_spec kickerPlayer ballNear false 2).2 hlt
  exact ⟨hge, h1, hlt, h2.1, h2.2.2.1, h2.2.2.2.2.2.1⟩

/-! Section: C8 -/

/-- Counterexample to C8: at facing 3.2, target 3.2 and dt 0 the agent leaves
its facing at 3.2 — outside the canonical range — while the human controller
wraps the same input to -3.08318, so the agent does not wrap the resulting
facing and the two updates are not identical. -/
theorem C8_counterexample :
    AIPlayer.facingUpdate 3.2 3.2 0 = 3.2 ∧
    Player.updateRotation 3.2 3.2 0 = -3.08318 ∧
    ¬ (AIPlayer.facingUpdate 3.2 3.2 0 ≤ 3.14159) := by
  have hw0 : wrapAngle ((3.2 : ℝ) - 3.2) = 0 := by
    rw [show (3.2 : ℝ) - 3.2 = 0 by norm_num]
    exact wrapAngle_eq_self 0 (by norm_num) (by norm_num)
  have hwrap32 : wrapAngle (3.2 : ℝ) = -3.08318 := by
    rw [wrapAngle, wrapLoopDown, dif_pos (by norm_num),
      show (3.2 : ℝ) - 6.28318 = -3.08318 by norm_num,
      wrapLoopDown_eq_self _ (by norm_num), wrapLoopUp_eq_self _ (by norm_num)]
  have hface : AIPlayer.facingUpdate 3.2 3.2 0 = 3.2 := by
    unfold AIPlayer.facingUpdate
    rw [hw0]
    ring
  have hrot : Player.updateRotation 3.2 3.2 0 = -3.08318 := by
    unfold Player.updateRotation
    rw [hw0]
    dsimp only
    rw [
      show (3.2 : ℝ) + 0 * (1 - Real.exp (-(Player.ROTATION_SPEED * 0))) = 3.2 by ring]
    exact hwrap32
  exact ⟨hface, hrot, by rw [hface]; norm_num⟩

/-- Claim C8 (amended): both facing updates use the same wrapped-difference
exponential turn step, the human at rate 6 and the agent at rate 8; the human
update equals the generic turn model at rate 6, and the agent omits only the
final wrap, so its update equals the turn model at rate 8 exactly when its
result already lies in the canonical [-3.14159, 3.14159] range. -/
theorem C8_turn_model_refinement (rotation targetRotation dt : ℝ) :
    Player.updateRotation rotation targetRotation dt =
      humanTurnModelSpec 6 rotation targetRotation dt ∧
    (-3.14159 ≤ AIPlayer.facingUpdate rotation targetRotation dt →
      AIPlayer.facingUpdate rotation targetRotation dt ≤ 3.14159 →
      AIPlayer.facingUpdate rotation targetRotation dt =
        humanTurnModelSpec 8 rotation targetRotation dt) := by
  constructor
  · unfold Player.updateRotation humanTurnModelSpec Player.ROTATION_SPEED
    rfl
  · intro h1 h2
    have hmodel : humanTurnModelSpec 8 rotation targetRotation dt =
        wrapAngle (AIPlayer.facingUpdate rotation targetRotation dt) := by
      unfold humanTurnModelSpec AIPlayer.facingUpdate AIPlayer.ROTATION_SPEED
      rfl
    rw [hmodel, wrapAngle_eq_self _ h1 h2]

/-- Witness for C8 (amended) at facing 0, target 0, dt 0. -/
theorem C8_witness :
    Player.updateRotation 0 0 0 = humanTurnModelSpec 6 0 0 0 ∧
    -3.14159 ≤ AIPlayer.facingUpdate 0 0 0 ∧
    AIPlayer.facingUpdate 0 0 0 ≤ 3.14159 ∧
    AIPlayer.facingUpdate 0 0 0 = humanTurnModelSpec 8 0 0 0 := by
  have hval : AIPlayer.facingUpdate 0 0 0 = 0 := by
    unfold AIPlayer.facingUpdate
    rw [show (0 : ℝ) - 0 = 0 by norm_num,
      wrapAngle_eq_self 0 (by norm_num) (by norm_num)]
    ring
  have hb1 : (-3.14159 : ℝ) ≤ AIPlayer.facingUpdate 0 0 0 := by
    rw [hval]
    norm_num
  have hb2 : AIPlayer.facingUpdate 0 0 0 ≤ 3.14159 := by
    rw [hval]
    norm_num
  have h := C8_turn_model_refinement 0 0 0
  exact ⟨h.1, hb1, hb2, h.2 hb1 hb2⟩

/-- Witness for C9 at the end-to-end scenario: ball at x = 53.5 inside the
right goal mouth of the default field scores for the right side. -/
theorem C9_witness :
    (Match.checkGoal defaultMatch ⟨53.5, 1, 0⟩).1 = true ∧
    (((Match.checkGoal defaultMatch ⟨53.5, 1, 0⟩).2.scoreLeft = defaultMatch.scoreLeft ∧
      (Match.checkGoal defaultMatch ⟨53.5, 1, 0⟩).2.scoreRight = defaultMatch.scoreRight + 1) ∨
     ((Match.checkGoal defaultMatch ⟨53.5, 1, 0⟩).2.scoreLeft = defaultMatch.scoreLeft + 1 ∧
      (Match.checkGoal defaultMatch ⟨53.5, 1, 0⟩).2.scoreRight = defaultMatch.scoreRight)) := by
  have htrue : (Match.checkGoal defaultMatch ⟨53.5, 1, 0⟩).1 = true := by
    norm_num [Match.checkGoal, defaultMatch, Ball.RADIUS, BallPhysics.BALL_RADIUS]
  exact ⟨htrue, C9_scores_monotone.2.1 defaultMatch ⟨53.5, 1, 0⟩ htrue⟩

/-! Section: C10 -/

/-- Claim C10: when the XZ distance d between two AI agents satisfies
0.01 < d < 0.7, AIPlayer::handleAICollision moves each agent by (0.7 - d)/2 in
opposite directions along the line between them, preserving the midpoint and
leaving their horizontal distance exactly 0.7; when d ≤ 0.01 or d ≥ 0.7 it
changes neither position. -/
theorem C10_ai_collision_separation (a b : AIPlayerData) :
    (0.01 < Vec3.length ⟨b.position.x - a.position.x, 0, b.position.z - a.position.z⟩ ∧
     Vec3.length ⟨b.position.x - a.position.x, 0, b.position.z - a.position.z⟩ < 0.7 →
      (AIPlayer.handleAICollision a b).1.position + (AIPlayer.handleAICollision a b).2.position =
        a.position + b.position ∧
      ((AIPlayer.handleAICollision a b).1.position - a.position).length =
        (0.7 - Vec3.length ⟨b.position.x - a.position.x, 0, b.position.z - a.position.z⟩) / 2 ∧
      ((AIPlayer.handleAICollision a b).2.position - b.position).length =
        (0.7 - Vec3.length ⟨b.position.x - a.position.x, 0, b.position.z - a.position.z⟩) / 2 ∧
      (AIPlayer.handleAICollision a b).1.position - a.position =
        -((AIPlayer.handleAICollision a b).2.position - b.position) ∧
      Vec3.length ⟨(AIPlayer.handleAICollision a b).2.position.x -
          (AIPlayer.handleAICollision a b).1.position.x, 0,
          (AIPlayer.handleAICollision a b).2.position.z -
          (AIPlayer.handleAICollision a b).1.position.z⟩ = 0.7) ∧
    (Vec3.length ⟨b.position.x - a.position.x, 0, b.position.z - a.position.z⟩ ≤ 0.01 ∨
     0.7 ≤ Vec3.length ⟨b.position.x - a.position.x, 0, b.position.z - a.position.z⟩ →
      AIPlayer.handleAICollision a b = (a, b)) := by
  set v : Vec3 := ⟨b.position.x - a.position.x, 0, b.position.z - a.position.z⟩ with hv
  set d : ℝ := v.length with hd
  constructor
  · rintro ⟨h001, h07⟩
    have hd0 : (0 : ℝ) < d := lt_trans (by norm_num) h001
    have hdne : d ≠ 0 := ne_of_gt hd0
    have hvne : v.length ≠ 0 := hd ▸ hdne
    have hc : (0 : ℝ) < (0.7 - d) * 0.5 := by linarith
    have hfun : AIPlayer.handleAICollision a b =
        ({ a with position := a.position - ((0.7 - d) * 0.5) • v.normalize },
         { b with position := b.position + ((0.7 - d) * 0.5) • v.normalize }) := by
      unfold AIPlayer.handleAICollision
      rw [← hv]
      dsimp only
      rw [← hd, if_pos ⟨h07, h001⟩]
    rw [hfun]
    dsimp only
    have hux : v.normalize.x = (1 / d) * v.x := by
      rw [Vec3.normalize, ← hd, Vec3.smul_x]
    have huz : v.normalize.z = (1 / d) * v.z := by
      rw [Vec3.normalize, ← hd, Vec3.smul_z]
    refine ⟨by ext <;> simp <;> ring, ?_, ?_, by ext <;> simp <;> ring, ?_⟩
    · have h1 : (a.position - ((0.7 - d) * 0.5) • v.normalize) - a.position =
          (-((0.7 - d) * 0.5)) • v.normalize := by
        ext <;> simp <;> ring
      rw [h1, Vec3.length_smul, Vec3.normalize_length v hvne, mul_one, abs_neg,
        abs_of_pos hc]
      ring
    · have h2 : (b.position + ((0.7 - d) * 0.5) • v.normalize) - b.position =
          ((0.7 - d) * 0.5) • v.normalize := by
        ext <;> simp <;> ring
      rw [h2, Vec3.length_smul, Vec3.normalize_length v hvne, mul_one, abs_of_pos hc]
      ring
    · have hvx : v.x = b.position.x - a.position.x := by rw [hv]
      have hvz : v.z = b.position.z - a.position.z := by rw [hv]
      have hvy : v.y = 0 := by rw [hv]
      have hw : (⟨(b.position + ((0.7 - d) * 0.5) • v.normalize).x -
            (a.position - ((0.7 - d) * 0.5) • v.normalize).x, 0,
            (b.position + ((0.7 - d) * 0.5) • v.normalize).z -
            (a.position - ((0.7 - d) * 0.5) • v.normalize).z⟩ : Vec3) =
          ((0.7 : ℝ) / d) • v := by
        ext
        · simp only [Vec3.add_x, Vec3.sub_x, Vec3.smul_x]
          rw [hux, hvx]
          field_simp
          ring
        · simp only [Vec3.smul_y]
          ring
        · simp only [Vec3.add_z, Vec3.sub_z, Vec3.smul_z]
          rw [huz, hvz]
          field_simp
          ring
      rw [hw, Vec3.length_smul, ← hd, abs_of_pos (by positivity), div_mul_cancel₀ _ hdne]
  · intro h
    unfold AIPlayer.handleAICollision
    rw [← hv]
    dsimp only
    rw [← hd, if_neg]
    rintro ⟨hlt, hgt⟩
    rcases h with h | h
    · linarith
    · linarith

/-- Witness for C10: agents 0.5 m apart get pushed to exactly 0.7 m with the
midpoint preserved, and agents 1 m apart are untouched. -/
theorem C10_witness :
    (0.01 < Vec3.length ⟨agentB.position.x - agentA.position.x, 0,
        agentB.position.z - agentA.position.z⟩ ∧
     Vec3.length ⟨agentB.position.x - agentA.position.x, 0,
        agentB.position.z - agentA.position.z⟩ < 0.7) ∧
    (AIPlayer.handleAICollision agentA agentB).1.position +
      (AIPlayer.handleAICollision agentA agentB).2.position =
        agentA.position + agentB.position ∧
    Vec3.length ⟨(AIPlayer.handleAICollision agentA agentB).2.position.x -
        (AIPlayer.handleAICollision agentA agentB).1.position.x, 0,
        (AIPlayer.handleAICollision agentA agentB).2.position.z -
        (AIPlayer.handleAICollision agentA agentB).1.position.z⟩ = 0.7 ∧
    0.7 ≤ Vec3.length ⟨agentC.position.x - agentA.position.x, 0,
        agentC.position.z - agentA.position.z⟩ ∧
    AIPlayer.handleAICollision agentA agentC = (agentA, agentC) := by
  have hlenB : Vec3.length ⟨agentB.position.x - agentA.position.x, 0,
      agentB.position.z - agentA.position.z⟩ = 0.5 := by
    show Vec3.length ⟨(0.5 : ℝ) - 0, 0, 0 - 0⟩ = 0.5
    rw [Vec3.length_mk,
      show (((0.5 : ℝ) - 0) ^ 2 + 0 ^ 2 + (0 - 0) ^ 2) = (0.5 : ℝ) ^ 2 by norm_num,
      Real.sqrt_sq (by norm_num)]
  have hlenC : Vec3.length ⟨agentC.position.x - agentA.position.x, 0,
      agentC.position.z - agentA.position.z⟩ = 1 := by
    show Vec3.length ⟨(1 : ℝ) - 0, 0, 0 - 0⟩ = 1
    rw [Vec3.length_mk,
      show (((1 : ℝ) - 0) ^ 2 + 0 ^ 2 + (0 - 0) ^ 2) = 1 by norm_num, Real.sqrt_one]
  have hin : 0.01 < Vec3.length ⟨agentB.position.x - agentA.position.x, 0,
      agentB.position.z - agentA.position.z⟩ ∧
      Vec3.length ⟨agentB.position.x - agentA.position.x, 0,
        agentB.position.z - agentA.position.z⟩ < 0.7 := by
    rw [hlenB]
    norm_num
  have hout : 0.7 ≤ Vec3.length ⟨agentC.position.x - agentA.position.x, 0,
      agentC.position.z - agentA.position.z⟩ := by
    rw [hlenC]
    norm_num
  have h1 := (C10_ai_collision_separation agentA agentB).1 hin
  have h2 := (C10_ai_collision_separation agentA agentC).2 (Or.inr hout)
  exact ⟨hin, h1.1, h1.2.2.2.2, hout, h2⟩

/-! Section: C5 fold machinery -/

/-- The running strict-minimum fold either keeps its accumulator (every
qualifying element being at least as far) or returns the first qualifying
element attaining the minimum distance, which then improves on the
accumulator, beats every earlier qualifying element strictly, and is at most
every qualifying element. -/
lemma selFold_spec {α : Type} (q : ℕ → α → Prop) [∀ i a, Decidable (q i a)] (d : α → ℝ) :
    ∀ (ps : List α) (n : ℕ) (acc : ℤ × ℝ),
      ((List.enumFrom n ps).foldl (selStep q d) acc = acc ∧
        ∀ k a, ps[k]? = some a → q (n + k) a → acc.2 ≤ d a) ∨
      (∃ k a, ps[k]? = some a ∧ q (n + k) a ∧
        (List.enumFrom n ps).foldl (selStep q d) acc = (((n + k : ℕ) : ℤ), d a) ∧
        d a < acc.2 ∧
        (∀ j b, ps[j]? = some b → q (n + j) b → j < k → d a < d b) ∧
        (∀ j b, ps[j]? = some b → q (n + j) b → d a ≤ d b)) := by
  intro ps
  induction ps with
  | nil =>
    intro n acc
    left
    refine ⟨rfl, ?_⟩
    intro k a hk
    simp at hk
  | cons p tl ih =>
    intro n acc
    have hcons : (List.enumFrom n (p :: tl)).foldl (selStep q d) acc =
        (List.enumFrom (n + 1) tl).foldl (selStep q d) (selStep q d acc (n, p)) := rfl
    by_cases hq : q n p ∧ d p < acc.2
    · have hstep : selStep q d acc (n, p) = ((n : ℤ), d p) := by
        unfold selStep
        rw [if_pos hq]
      rcases ih (n + 1) ((n : ℤ), d p) with ⟨hres, hall⟩ |
        ⟨k, a, hget, hqa, hres, hlt, hfirst, hmin⟩
      · right
        refine ⟨0, p, by simp, by simpa using hq.1, ?_, by simpa using hq.2, ?_, ?_⟩
        · rw [hcons, hstep, hres]
          simp
        · intro j b _ _ hj
          exact absurd hj (Nat.not_lt_zero j)
        · intro j b hgetb hqb
          match j with
          | 0 =>
            simp only [List.getElem?_cons_zero, Option.some.injEq] at hgetb
            subst hgetb
            exact le_refl _
          | j + 1 =>
            rw [List.getElem?_cons_succ] at hgetb
            have hq2 : q (n + 1 + j) b := by
              have hidx : n + 1 + j = n + (j + 1) := by omega
              rw [hidx]
              exact hqb
            simpa using hall j b hgetb hq2
      · right
        refine ⟨k + 1, a, ?_, ?_, ?_, ?_, ?_, ?_⟩
        · rw [List.getElem?_cons_succ]
          exact hget
        · have hidx : n + (k + 1) = n + 1 + k := by omega
          rw [hidx]
          exact hqa
        · rw [hcons, hstep, hres]
          have hidx : n + 1 + k = n + (k + 1) := by omega
          rw [hidx]
        · have hap : d a < d p := by simpa using hlt
          exact lt_trans hap hq.2
        · intro j b hgetb hqb hj
          match j with
          | 0 =>
            simp only [List.getElem?_cons_zero, Option.some.injEq] at hgetb
            subst hgetb
            simpa using hlt
          | j + 1 =>
            rw [List.getElem?_cons_succ] at hgetb
            have hq2 : q (n + 1 + j) b := by
              have hidx : n + 1 + j = n + (j + 1) := by omega
              rw [hidx]
              exact hqb
            exact hfirst j b hgetb hq2 (by omega)
        · intro j b hgetb hqb
          match j with
          | 0 =>
            simp only [List.getElem?_cons_zero, Option.some.injEq] at hgetb
            subst hgetb
            have hap : d a < d p := by simpa using hlt
            exact le_of_lt hap
          | j + 1 =>
            rw [List.getElem?_cons_succ] at hgetb
            have hq2 : q (n + 1 + j) b := by
              have hidx : n + 1 + j = n + (j + 1) := by omega
              rw [hidx]
              exact hqb
            exact hmin j b hgetb hq2
    · have hstep : selStep q d acc (n, p) = acc := by
        unfold selStep
        rw [if_neg hq]
      rcases ih (n + 1) acc with ⟨hres, hall⟩ |
        ⟨k, a, hget, hqa, hres, hlt, hfirst, hmin⟩
      · left
        refine ⟨by rw [hcons, hstep, hres], ?_⟩
        intro k a hgetb hqa
        match k with
        | 0 =>
          simp only [List.getElem?_cons_zero, Option.some.injEq] at hgetb
          subst hgetb
          have h1 : q n p := by simpa using hqa
          by_contra hcon
          exact hq ⟨h1, lt_of_not_le hcon⟩
        | k + 1 =>
          rw [List.getElem?_cons_succ] at hgetb
          have hq2 : q (n + 1 + k) a := by
            have hidx : n + 1 + k = n + (k + 1) := by omega
            rw [hidx]
            exact hqa
          exact hall k a hgetb hq2
      · right
        refine ⟨k + 1, a, ?_, ?_, ?_, hlt, ?_, ?_⟩
        · rw [List.getElem?_cons_succ]
          exact hget
        · have hidx : n + (k + 1) = n + 1 + k := by omega
          rw [hidx]
          exact hqa
        · rw [hcons, hstep, hres]
          have hidx : n + 1 + k = n + (k + 1) := by omega
          rw [hidx]
        · intro j b hgetb hqb hj
          match j with
          | 0 =>
            simp only [List.getElem?_cons_zero, Option.some.injEq] at hgetb
            subst hgetb
            have h1 : q n p := by simpa using hqb
            have h2 : ¬ d p < acc.2 := fun hcon => hq ⟨h1, hcon⟩
            exact lt_of_lt_of_le hlt (not_lt.mp h2)
          | j + 1 =>
            rw [List.getElem?_cons_succ] at hgetb
            have hq2 : q (n + 1 + j) b := by
              have hidx : n + 1 + j = n + (j + 1) := by omega
              rw [hidx]
              exact hqb
            exact hfirst j b hgetb hq2 (by omega)
        · intro j b hgetb hqb
          match j with
          | 0 =>
            simp only [List.getElem?_cons_zero, Option.some.injEq] at hgetb
            subst hgetb
            have h1 : q n p := by simpa using hqb
            have h2 : ¬ d p < acc.2 := fun hcon => hq ⟨h1, hcon⟩
            exact le_of_lt (lt_of_lt_of_le hlt (not_lt.mp h2))
          | j + 1 =>
            rw [List.getElem?_cons_succ] at hgetb
            have hq2 : q (n + 1 + j) b := by
              have hidx : n + 1 + j = n + (j + 1) := by omega
              rw [hidx]
              exact hqb
            exact hmin j b hgetb hq2

/-- The red components of the chaser fold step form the generic selection step
for the red qualification predicate. -/
lemma chaserFold_red_step (ballPos : Vec3) (acc : ℤ × ℝ × ℤ × ℝ) (ie : ℕ × AIPlayerData) :
    ((AIManager.chaserFold ballPos acc ie).1, (AIManager.chaserFold ballPos acc ie).2.1) =
      selStep qRed (fun p => AIPlayer.distanceToBall p ballPos) (acc.1, acc.2.1) ie := by
  unfold AIManager.chaserFold selStep qRed
  dsimp only
  split_ifs <;> first | rfl | tauto

/-- The blue components of the chaser fold step form the generic selection
step for the blue qualification predicate. -/
lemma chaserFold_blue_step (ballPos : Vec3) (acc : ℤ × ℝ × ℤ × ℝ) (ie : ℕ × AIPlayerData) :
    (AIManager.chaserFold ballPos acc ie).2.2 =
      selStep qBlue (fun p => AIPlayer.distanceToBall p ballPos) acc.2.2 ie := by
  unfold AIManager.chaserFold selStep qBlue
  dsimp only
  split_ifs <;> first | rfl | tauto | (exfalso; omega)

/-- The chaser fold projects componentwise onto the two generic selection
folds. -/
lemma chaserFold_foldl_proj (ballPos : Vec3) :
    ∀ (l : List (ℕ × AIPlayerData)) (acc : ℤ × ℝ × ℤ × ℝ),
      ((l.foldl (AIManager.chaserFold ballPos) acc).1,
       (l.foldl (AIManager.chaserFold ballPos) acc).2.1) =
        l.foldl (selStep qRed (fun p => AIPlayer.distanceToBall p ballPos)) (acc.1, acc.2.1) ∧
      (l.foldl (AIManager.chaserFold ballPos) acc).2.2 =
        l.foldl (selStep qBlue (fun p => AIPlayer.distanceToBall p ballPos)) acc.2.2 := by
  intro l
  induction l with
  | nil => intro acc; exact ⟨rfl, rfl⟩
  | cons ie rest ih =>
    intro acc
    simp only [List.foldl_cons]
    have h := ih (AIManager.chaserFold ballPos acc ie)
    rw [h.1, h.2, chaserFold_red_step, chaserFold_blue_step]
    exact ⟨rfl, rfl⟩

/-- A team-0 non-goalkeeper roster index is one of the five red outfielders. -/
lemma roster_red_range (fl : ℝ) (k : ℕ) (p : AIPlayerData)
    (hget : (AIManager.createTeams fl)[k]? = some p) (hteam : p.team = 0)
    (hgk : ¬(k = 0 ∨ k = 6)) : 1 ≤ k ∧ k ≤ 5 := by
  have hk11 : k < 11 := by
    by_contra hk
    push_neg at hk
    rw [List.getElem?_eq_none (by simp [AIManager.createTeams]; omega)] at hget
    exact Option.noConfusion hget
  interval_cases k <;>
    simp_all [AIManager.createTeams, AIPlayer.setTeam, AIPlayer.setHomePosition,
      AIPlayer.init] <;>
    (subst hget; simp_all)

/-- A team-1 non-goalkeeper roster index is one of the four blue outfielders. -/
lemma roster_blue_range (fl : ℝ) (k : ℕ) (p : AIPlayerData)
    (hget : (AIManager.createTeams fl)[k]? = some p) (hteam : p.team = 1)
    (hgk : ¬(k = 0 ∨ k = 6)) : 7 ≤ k ∧ k ≤ 10 := by
  have hk11 : k < 11 := by
    by_contra hk
    push_neg at hk
    rw [List.getElem?_eq_none (by simp [AIManager.createTeams]; omega)] at hget
    exact Option.noConfusion hget
  interval_cases k <;>
    simp_all [AIManager.createTeams, AIPlayer.setTeam, AIPlayer.setHomePosition,
      AIPlayer.init] <;>
    (subst hget; simp_all)

/-! Section: C5 -/

/-- Claim C5 (amended): whenever every non-goalkeeper of the createTeams
roster is closer to the ball than the 999 sentinel (in particular for any
ball on the field), AIManager::findClosestChasers flags exactly one red
outfielder (index 1..5) and exactly one blue outfielder (index 7..10) — never
zero, never two per team — and each flagged agent is the first one of its
team, in enumeration order, attaining the minimum ball distance (equidistant
earlier teammates would win, so the tie-break is deterministic). -/
theorem C5_chaser_selection (fieldLength : ℝ) (ballPos : Vec3)
    (H : ∀ k p, (AIManager.createTeams fieldLength)[k]? = some p → ¬(k = 0 ∨ k = 6) →
      AIPlayer.distanceToBall p ballPos < 999) :
    ∃ i j pi pj,
      1 ≤ i ∧ i ≤ 5 ∧ 7 ≤ j ∧ j ≤ 10 ∧
      (AIManager.createTeams fieldLength)[i]? = some pi ∧
      (AIManager.createTeams fieldLength)[j]? = some pj ∧
      (∀ m pm,
        (AIManager.findClosestChasers (AIManager.createTeams fieldLength) ballPos)[m]? =
          some pm →
        (pm.isClosestChaser = true ↔ m = i ∨ m = j)) ∧
      (∀ k pk, (AIManager.createTeams fieldLength)[k]? = some pk → pk.team = 0 →
        ¬(k = 0 ∨ k = 6) →
        AIPlayer.distanceToBall pi ballPos ≤ AIPlayer.distanceToBall pk ballPos ∧
        (k < i → AIPlayer.distanceToBall pi ballPos < AIPlayer.distanceToBall pk ballPos)) ∧
      (∀ k pk, (AIManager.createTeams fieldLength)[k]? = some pk → pk.team = 1 →
        ¬(k = 0 ∨ k = 6) →
        AIPlayer.distanceToBall pj ballPos ≤ AIPlayer.distanceToBall pk ballPos ∧
        (k < j → AIPlayer.distanceToBall pj ballPos < AIPlayer.distanceToBall pk ballPos)) := by
  have henum : (AIManager.createTeams fieldLength).enum =
      List.enumFrom 0 (AIManager.createTeams fieldLength) := rfl
  rcases selFold_spec qRed (fun p => AIPlayer.distanceToBall p ballPos)
      (AIManager.createTeams fieldLength) 0 (-1, 999) with ⟨hres, hall⟩ |
      ⟨i, pi, hgeti, hqi, hresi, hlti, hfirsti, hmini⟩
  · exfalso
    have hget1 : (AIManager.createTeams fieldLength)[1]? =
        some (AIPlayer.setTeam (AIPlayer.setHomePosition AIPlayer.init ⟨-35, 0, -12⟩) 0) := by
      simp [AIManager.createTeams]
    have hq1 : qRed (0 + 1)
        (AIPlayer.setTeam (AIPlayer.setHomePosition AIPlayer.init ⟨-35, 0, -12⟩) 0) :=
      ⟨rfl, by omega⟩
    have h999 := hall 1 _ hget1 hq1
    have hlt999 := H 1 _ hget1 (by omega)
    dsimp at h999
    linarith
  · rcases selFold_spec qBlue (fun p => AIPlayer.distanceToBall p ballPos)
        (AIManager.createTeams fieldLength) 0 (-1, 999) with ⟨hresB, hallB⟩ |
        ⟨j, pj, hgetj, hqj, hresj, hltj, hfirstj, hminj⟩
    · exfalso
      have hget7 : (AIManager.createTeams fieldLength)[7]? =
          some (AIPlayer.setTeam (AIPlayer.setHomePosition AIPlayer.init ⟨35, 0, -12⟩) 1) := by
        simp [AIManager.createTeams]
      have hq7 : qBlue (0 + 7)
          (AIPlayer.setTeam (AIPlayer.setHomePosition AIPlayer.init ⟨35, 0, -12⟩) 1) :=
        ⟨rfl, by omega⟩
      have h999 := hallB 7 _ hget7 hq7
      have hlt999 := H 7 _ hget7 (by omega)
      dsimp at h999
      linarith
    · simp only [Nat.zero_add] at hqi hresi hfirsti hmini hqj hresj hfirstj hminj
      rw [← henum] at hresi hresj
      have hrange_i := roster_red_range fieldLength i pi hgeti hqi.1 hqi.2
      have hrange_j := roster_blue_range fieldLength j pj hgetj hqj.1 hqj.2
      refine ⟨i, j, pi, pj, hrange_i.1, hrange_i.2, hrange_j.1, hrange_j.2, hgeti, hgetj,
        ?_, ?_, ?_⟩
      · intro m pm hm
        have hproj := chaserFold_foldl_proj ballPos
          ((AIManager.createTeams fieldLength).enum) (-1, 999, -1, 999)
        have hr1 : ((AIManager.createTeams fieldLength).enum.foldl
            (AIManager.chaserFold ballPos) (-1, 999, -1, 999)).1 = ((i : ℕ) : ℤ) := by
          have h := hproj.1
          dsimp only at h
          rw [hresi] at h
          simpa using congrArg Prod.fst h
        have hr2 : ((AIManager.createTeams fieldLength).enum.foldl
            (AIManager.chaserFold ballPos) (-1, 999, -1, 999)).2.2.1 = ((j : ℕ) : ℤ) := by
          have h := hproj.2
          dsimp only at h
          rw [hresj] at h
          simpa using congrArg Prod.fst h
        unfold AIManager.findClosestChasers at hm
        dsimp only at hm
        simp only [hr1, hr2, List.getElem?_map, List.getElem?_enum] at hm
        rcases hgm : (AIManager.createTeams fieldLength)[m]? with _ | x
        · rw [hgm] at hm
          simp at hm
        · rw [hgm] at hm
          simp only [Option.map_some', Option.some.injEq] at hm
          subst hm
          simp
      · intro k pk hgetk hteamk hgkk
        exact ⟨hmini k pk hgetk ⟨hteamk, hgkk⟩,
          fun hki => hfirsti k pk hgetk ⟨hteamk, hgkk⟩ hki⟩
      · intro k pk hgetk hteamk hgkk
        exact ⟨hminj k pk hgetk ⟨hteamk, hgkk⟩,
          fun hkj => hfirstj k pk hgetk ⟨hteamk, hgkk⟩ hkj⟩

lemma le_sqrt_999 (c : ℝ) (h : (998001 : ℝ) ≤ c) : (999 : ℝ) ≤ Real.sqrt c := by
  rw [Real.le_sqrt' (by norm_num)]
  calc (999 : ℝ) ^ 2 = 998001 := by norm_num
    _ ≤ c := h

lemma sqrt_lt_999 (c : ℝ) (h : c < 998001) : Real.sqrt c < 999 := by
  rw [Real.sqrt_lt' (by norm_num)]
  exact lt_of_lt_of_le h (by norm_num)

/-- Counterexample to C5 as stated: with the ball at x = 2000 every outfielder
is at least 999 away, so the -1/999 sentinels survive the fold and no agent at
all is flagged as designated chaser for either team (the claim requires
exactly one per team). -/
theorem C5_counterexample :
    chaserFlags (AIManager.findClosestChasers (AIManager.createTeams 105) ⟨2000, 0, 0⟩) =
      [false, false, false, false, false, false, false, false, false, false, false] := by
  have hfar : ∀ k p, (AIManager.createTeams 105)[k]? = some p → ¬(k = 0 ∨ k = 6) →
      (999 : ℝ) ≤ AIPlayer.distanceToBall p ⟨2000, 0, 0⟩ := by
    intro k p hget hgk
    have hk11 : k < 11 := by
      by_contra hk
      push_neg at hk
      rw [List.getElem?_eq_none (by simp [AIManager.createTeams]; omega)] at hget
      exact Option.noConfusion hget
    interval_cases k <;>
      first
      | exact absurd (by omega) hgk
      | (simp only [AIManager.createTeams, AIPlayer.setTeam, AIPlayer.setHomePosition,
           AIPlayer.init, List.getElem?_cons_zero, List.getElem?_cons_succ,
           Option.some.injEq] at hget
         subst hget
         unfold AIPlayer.distanceToBall
         dsimp only
         rw [Vec3.length_mk]
         apply le_sqrt_999
         norm_num)
  have hred : (List.enumFrom 0 (AIManager.createTeams 105)).foldl
      (selStep qRed (fun p => AIPlayer.distanceToBall p ⟨2000, 0, 0⟩)) (-1, 999) =
      (-1, 999) := by
    rcases selFold_spec qRed (fun p => AIPlayer.distanceToBall p ⟨2000, 0, 0⟩)
        (AIManager.createTeams 105) 0 (-1, 999) with ⟨hres, _⟩ |
        ⟨k, a, hget, hqa, _, hlt, _, _⟩
    · exact hres
    · exfalso
      simp only [Nat.zero_add] at hqa
      have h999 := hfar k a hget hqa.2
      dsimp at hlt
      linarith
  have hblue : (List.enumFrom 0 (AIManager.createTeams 105)).foldl
      (selStep qBlue (fun p => AIPlayer.distanceToBall p ⟨2000, 0, 0⟩)) (-1, 999) =
      (-1, 999) := by
    rcases selFold_spec qBlue (fun p => AIPlayer.distanceToBall p ⟨2000, 0, 0⟩)
        (AIManager.createTeams 105) 0 (-1, 999) with ⟨hres, _⟩ |
        ⟨k, a, hget, hqa, _, hlt, _, _⟩
    · exact hres
    · exfalso
      simp only [Nat.zero_add] at hqa
      have h999 := hfar k a hget hqa.2
      dsimp at hlt
      linarith
  have hfold4 : (AIManager.createTeams 105).enum.foldl
      (AIManager.chaserFold ⟨2000, 0, 0⟩) (-1, 999, -1, 999) = (-1, 999, -1, 999) := by
    have hproj := chaserFold_foldl_proj ⟨2000, 0, 0⟩
      ((AIManager.createTeams 105).enum) (-1, 999, -1, 999)
    have h1 := hproj.1
    have h2 := hproj.2
    dsimp only at h1 h2
    rw [show (AIManager.createTeams 105).enum =
      List.enumFrom 0 (AIManager.createTeams 105) from rfl, hred] at h1
    rw [show (AIManager.createTeams 105).enum =
      List.enumFrom 0 (AIManager.createTeams 105) from rfl, hblue] at h2
    have hfst := congrArg Prod.fst h1
    have hsnd := congrArg Prod.snd h1
    dsimp at hfst hsnd
    refine Prod.ext hfst (Prod.ext hsnd ?_)
    rw [show (AIManager.createTeams 105).enum =
      List.enumFrom 0 (AIManager.createTeams 105) from rfl]
    exact h2
  unfold chaserFlags AIManager.findClosestChasers
  dsimp only
  rw [hfold4]
  simp [AIManager.createTeams, List.enum, List.enumFrom, AIPlayer.setTeam,
    AIPlayer.setHomePosition, AIPlayer.init]

/-- Witness for C5 (amended) at the ball on the center spot: every outfielder
distance is far below 999, so the theorem applies; the blue minimum is a tie
between the two blue midfielders, exercising the first-index tie-break. -/
theorem C5_witness :
    (∀ k p, (AIManager.createTeams 105)[k]? = some p → ¬(k = 0 ∨ k = 6) →
      AIPlayer.distanceToBall p ⟨0, 0, 0⟩ < 999) ∧
    (∃ i j pi pj,
      1 ≤ i ∧ i ≤ 5 ∧ 7 ≤ j ∧ j ≤ 10 ∧
      (AIManager.createTeams 105)[i]? = some pi ∧
      (AIManager.createTeams 105)[j]? = some pj ∧
      (∀ m pm,
        (AIManager.findClosestChasers (AIManager.createTeams 105) ⟨0, 0, 0⟩)[m]? = some pm →
        (pm.isClosestChaser = true ↔ m = i ∨ m = j)) ∧
      (∀ k pk, (AIManager.createTeams 105)[k]? = some pk → pk.team = 0 →
        ¬(k = 0 ∨ k = 6) →
        AIPlayer.distanceToBall pi ⟨0, 0, 0⟩ ≤ AIPlayer.distanceToBall pk ⟨0, 0, 0⟩ ∧
        (k < i → AIPlayer.distanceToBall pi ⟨0, 0, 0⟩ < AIPlayer.distanceToBall pk ⟨0, 0, 0⟩)) ∧
      (∀ k pk, (AIManager.createTeams 105)[k]? = some pk → pk.team = 1 →
        ¬(k = 0 ∨ k = 6) →
        AIPlayer.distanceToBall pj ⟨0, 0, 0⟩ ≤ AIPlayer.distanceToBall pk ⟨0, 0, 0⟩ ∧
        (k < j → AIPlayer.distanceToBall pj ⟨0, 0, 0⟩ < AIPlayer.distanceToBall pk ⟨0, 0, 0⟩))) := by
  have H : ∀ k p, (AIManager.createTeams 105)[k]? = some p → ¬(k = 0 ∨ k = 6) →
      AIPlayer.distanceToBall p ⟨0, 0, 0⟩ < 999 := by
    intro k p hget hgk
    have hk11 : k < 11 := by
      by_contra hk
      push_neg at hk
      rw [List.getElem?_eq_none (by simp [AIManager.createTeams]; omega)] at hget
      exact Option.noConfusion hget
    interval_cases k <;>
      first
      | exact absurd (by omega) hgk
      | (simp only [AIManager.createTeams, AIPlayer.setTeam, AIPlayer.setHomePosition,
           AIPlayer.init, List.getElem?_cons_zero, List.getElem?_cons_succ,
           Option.some.injEq] at hget
         subst hget
         unfold AIPlayer.distanceToBall
         dsimp only
         rw [Vec3.length_mk]
         apply sqrt_lt_999
         norm_num)
  exact ⟨H, C5_chaser_selection 105 ⟨0, 0, 0⟩ H⟩

end
